import Mathlib

/-!
Verification development for the PeerConnection core (src/peerconnection.go).

The Go source is shallowly embedded: pure helpers become Lean functions and
the methods that mutate the PeerConnection become functions from the
bookkeeping state to an optional error paired with the successor state.
External collaborators (ICE gatherer, DTLS/SCTP transports, the SDP text
parser/serializer, the media engine, certificates) are out of scope per the
specification and appear as explicit parameters; their only modelled effect
is whether they succeed.  A few small helpers of the repository that are not
part of src/peerconnection.go (the signaling transition table, the
kind/direction string decoders, the SCTP channel bound) are modelled from
the specification and marked as such in their doc comments.
-/

set_option maxHeartbeats 1000000

namespace Webrtc

/-- SDP description types.  The Go type has a zero value that is none of the
four named constants; it is kept here as an explicit constructor so that the
default branches of the source switches stay live. -/
inductive SDPType where
  | unknownType
  | offer
  | pranswer
  | answer
  | rollback
deriving DecidableEq, Repr

/-- Go String() rendering of an SDPType, used to build error texts. -/
def SDPType.goString : SDPType → String
  | .unknownType => "unknown"
  | .offer => "offer"
  | .pranswer => "pranswer"
  | .answer => "answer"
  | .rollback => "rollback"

/-- Signaling states of the W3C state machine. -/
inductive SignalingState where
  | stable
  | haveLocalOffer
  | haveRemoteOffer
  | haveLocalPranswer
  | haveRemotePranswer
  | closed
deriving DecidableEq, Repr

/-- The two operations that install a description. -/
inductive StateChangeOp where
  | opSetLocal
  | opSetRemote
deriving DecidableEq, Repr

/-- Go String() rendering of a state change op, used to build error texts. -/
def StateChangeOp.goString : StateChangeOp → String
  | .opSetLocal => "SetLocal"
  | .opSetRemote => "SetRemote"

/-- RTP codec kinds; the zero value of the Go type is unknown. -/
inductive RTPCodecType where
  | unknownCodecType
  | audio
  | video
deriving DecidableEq, Repr

/-- Go String() rendering of the codec kind (the SDP media token). -/
def RTPCodecType.goString : RTPCodecType → String
  | .unknownCodecType => ""
  | .audio => "audio"
  | .video => "video"

/-- Modelled from the spec: NewRTPCodecType lives outside
src/peerconnection.go; the spec fixes the kinds to audio and video, decoded
from the SDP media token, anything else being the unknown zero value. -/
def NewRTPCodecType (s : String) : RTPCodecType :=
  if s = "audio" then .audio
  else if s = "video" then .video
  else .unknownCodecType

/-- Transceiver directions; the zero value of the Go type is unknown. -/
inductive RTPTransceiverDirection where
  | unknownDirection
  | sendrecv
  | sendonly
  | recvonly
  | inactive
deriving DecidableEq, Repr

/-- Modelled from the spec: NewRTPTransceiverDirection lives outside
src/peerconnection.go; the spec fixes the four direction attribute names,
anything else being the unknown zero value. -/
def NewRTPTransceiverDirection (s : String) : RTPTransceiverDirection :=
  if s = "sendrecv" then .sendrecv
  else if s = "sendonly" then .sendonly
  else if s = "recvonly" then .recvonly
  else if s = "inactive" then .inactive
  else .unknownDirection

/-- SDP semantics configured on the PeerConnection. -/
inductive SDPSemantics where
  | unifiedPlan
  | planB
  | unifiedPlanWithFallback
deriving DecidableEq, Repr

/-- Media tracks: only the fields the embedded code inspects are kept
(the payload/ssrc/codec machinery is driven by external transports). -/
structure Track where
  kind : RTPCodecType
deriving DecidableEq, Repr

/-- RTP senders: the track and the has-sent flag read by AddTrack.  The
actual sending machinery is the external DTLS/SRTP stack. -/
structure RTPSender where
  track : Option Track
  hasSentFlag : Bool
deriving DecidableEq, Repr

/-- RTP receivers: only the (possibly not yet created) track is kept. -/
structure RTPReceiver where
  track : Option Track
deriving DecidableEq, Repr

/-- Transceivers, mirroring the Go struct: sender, receiver, direction,
stopped flag and kind. -/
structure RTPTransceiver where
  sender : Option RTPSender
  receiver : Option RTPReceiver
  direction : RTPTransceiverDirection
  stopped : Bool
  kind : RTPCodecType
deriving DecidableEq, Repr

/-- One SDP attribute; property attributes carry an empty value. -/
structure SDPAttribute where
  key : String
  value : String
deriving DecidableEq, Repr

/-- The m-line of a media section. -/
structure MediaName where
  media : String
  port : Nat
  protos : List String
  formats : List String
deriving DecidableEq, Repr

/-- One parsed media section: its m-line and attribute list. -/
structure MediaDescription where
  mediaName : MediaName
  attributes : List SDPAttribute
deriving DecidableEq, Repr

/-- A parsed SDP document: session level attributes and media sections.
The remaining fields of the external sdp package are never read by the
embedded code. -/
structure ParsedSDP where
  attributes : List SDPAttribute
  mediaDescriptions : List MediaDescription
deriving DecidableEq, Repr

/-- A session description: type, text and (once unmarshalled) parsed tree. -/
structure SessionDescription where
  sdpType : SDPType
  sdp : String
  parsed : Option ParsedSDP
deriving DecidableEq, Repr

/-- Bundle policies; unspecified is the Go zero value. -/
inductive BundlePolicy where
  | unspecifiedBundlePolicy
  | balanced
  | maxCompat
  | maxBundle
deriving DecidableEq, Repr

/-- RTCP mux policies; unspecified is the Go zero value. -/
inductive RTCPMuxPolicy where
  | unspecifiedRTCPMuxPolicy
  | negotiate
  | require
deriving DecidableEq, Repr

/-- ICE transport policies; unspecified is the Go zero value. -/
inductive ICETransportPolicy where
  | unspecifiedICETransportPolicy
  | policyRelay
  | policyAll
deriving DecidableEq, Repr

/-- Peer connection states (only construction and Close touch this). -/
inductive PeerConnectionState where
  | pcNew
  | pcConnecting
  | pcConnected
  | pcDisconnected
  | pcFailed
  | pcClosed
deriving DecidableEq, Repr

/-- Configuration of the PeerConnection.  Certificates and ICE servers are
external objects; they are represented by opaque numeric tags, with
Certificate.Equals becoming tag equality. -/
structure Configuration where
  peerIdentity : String
  certificates : List Nat
  bundlePolicy : BundlePolicy
  rtcpMuxPolicy : RTCPMuxPolicy
  iceCandidatePoolSize : Nat
  iceTransportPolicy : ICETransportPolicy
  sdpSemantics : SDPSemantics
  iceServers : List Nat
deriving DecidableEq, Repr

/-- Symbolic codes for the sentinel errors of the rtcerr package. -/
inductive ErrCode where
  | connectionClosed
  | noRemoteDescription
  | maxDataChannelID
  | retransmitsOrPacketLifeTime
  | incorrectSDPSemantics
  | modifyingPeerIdentity
  | modifyingCertificates
  | modifyingBundlePolicy
  | modifyingRTCPMuxPolicy
  | modifyingICECandidatePoolSize
  | signalingTransitionInvalid
deriving DecidableEq, Repr

/-- Errors returned by the embedded API, keeping the rtcerr taxonomy and,
for the fmt.Errorf cases the claims inspect, the literal message text. -/
inductive RTCErr where
  | invalidState (code : ErrCode)
  | invalidAccess (code : ErrCode)
  | invalidModificationCode (code : ErrCode)
  | invalidModificationMsg (msg : String)
  | operationErrorCode (code : ErrCode)
  | operationErrorMsg (msg : String)
  | typeError (code : ErrCode)
  | plain (msg : String)
deriving DecidableEq, Repr

/-- The mutable bookkeeping of a PeerConnection guarded by its lock, plus a
ghost trace of the signaling-state-change callbacks that were dispatched.
The four transports are external; only the facts the embedded code branches
on (whether an SCTP transport is attached and the effective channel bound)
are recorded. -/
structure PCState where
  configuration : Configuration
  currentLocalDescription : Option SessionDescription
  pendingLocalDescription : Option SessionDescription
  currentRemoteDescription : Option SessionDescription
  pendingRemoteDescription : Option SessionDescription
  signalingState : SignalingState
  connectionState : PeerConnectionState
  isClosed : Bool
  lastOffer : String
  lastAnswer : String
  idpLoginURL : Option String
  rtpTransceivers : List RTPTransceiver
  dataChannels : List Nat
  dataChannelsRequested : Nat
  sctpTransportAttached : Bool
  sctpMaxChannels : Nat
  signalingChangeEvents : List SignalingState
deriving DecidableEq, Repr

/-- The state of a freshly constructed PeerConnection (NewPeerConnection
zero values; the generated certificate is external).  The channel bound
65535 records the package constant used while no SCTP transport is
attached; it is modelled from the spec as a fixed bound. -/
def initialPCState : PCState :=
  { configuration :=
      { peerIdentity := ""
        certificates := [0]
        bundlePolicy := .balanced
        rtcpMuxPolicy := .require
        iceCandidatePoolSize := 0
        iceTransportPolicy := .policyAll
        sdpSemantics := .unifiedPlan
        iceServers := [] }
    currentLocalDescription := none
    pendingLocalDescription := none
    currentRemoteDescription := none
    pendingRemoteDescription := none
    signalingState := .stable
    connectionState := .pcNew
    isClosed := false
    lastOffer := ""
    lastAnswer := ""
    idpLoginURL := none
    rtpTransceivers := []
    dataChannels := []
    dataChannelsRequested := 0
    sctpTransportAttached := false
    sctpMaxChannels := 65535
    signalingChangeEvents := [] }

/-- Modelled from the spec: checkNextSignalingState lives outside
src/peerconnection.go.  The spec's transition table permits
stable-setLocal(offer), have-local-offer-setLocal(offer) (idempotent
refresh), have-remote-offer-setLocal(answer),
have-remote-offer-setLocal(pranswer), have-local-pranswer-setLocal(answer),
stable-setRemote(offer), have-local-offer-setRemote(answer),
have-local-offer-setRemote(pranswer),
have-remote-pranswer-setRemote(answer), and rollback from any non-closed
state; every other pair raises InvalidModificationError. -/
def signalingTransitionAllowed (cur : SignalingState) (op : StateChangeOp)
    (t : SDPType) : Bool :=
  match op, t with
  | .opSetLocal, .offer => cur = .stable || cur = .haveLocalOffer
  | .opSetLocal, .answer => cur = .haveRemoteOffer || cur = .haveLocalPranswer
  | .opSetLocal, .pranswer => cur = .haveRemoteOffer
  | .opSetRemote, .offer => cur = .stable
  | .opSetRemote, .answer => cur = .haveLocalOffer || cur = .haveRemotePranswer
  | .opSetRemote, .pranswer => cur = .haveLocalOffer
  | _, .rollback => !(cur = .closed)
  | _, .unknownType => false

/-- Modelled from the spec (see signalingTransitionAllowed): returns the
proposed next state on success and the InvalidModificationError on a
forbidden pair, matching the Go signature. -/
def checkNextSignalingState (cur next : SignalingState) (op : StateChangeOp)
    (t : SDPType) : SignalingState × Option RTCErr :=
  if signalingTransitionAllowed cur op t then (next, none)
  else (next, some (.invalidModificationCode .signalingTransitionInvalid))

/-- Dispatching the signaling state callback (onSignalingStateChange): the
handler itself runs in its own task; the ghost trace records the dispatch. -/
def fireSignalingStateChange (pc : PCState) (s : SignalingState) : PCState :=
  { pc with signalingChangeEvents := pc.signalingChangeEvents ++ [s] }

/-- Translation of PeerConnection.setDescription.  Mutations of the
description slots happen exactly where the source assigns them (under the
err == nil guards); the final state commit and callback dispatch happen
under the trailing err == nil check. -/
def setDescription (pc : PCState) (sd : SessionDescription)
    (op : StateChangeOp) : Option RTCErr × PCState :=
  if pc.isClosed then
    (some (.invalidState .connectionClosed), pc)
  else
    let cur := pc.signalingState
    let newSDPDoesNotMatchOffer : RTCErr :=
      .invalidModificationMsg "new sdp does not match previous offer"
    let newSDPDoesNotMatchAnswer : RTCErr :=
      .invalidModificationMsg "new sdp does not match previous answer"
    let commit : PCState → SignalingState → Option RTCErr → Option RTCErr × PCState :=
      fun pc1 nextState err =>
        match err with
        | none =>
            (none, fireSignalingStateChange
              { pc1 with signalingState := nextState } nextState)
        | some e => (some e, pc1)
    match op with
    | .opSetLocal =>
        match sd.sdpType with
        | .offer =>
            if sd.sdp ≠ pc.lastOffer then
              (some newSDPDoesNotMatchOffer, pc)
            else
              let (nextState, err) :=
                checkNextSignalingState cur .haveLocalOffer .opSetLocal sd.sdpType
              let pc1 :=
                if err = none then { pc with pendingLocalDescription := some sd }
                else pc
              commit pc1 nextState err
        | .answer =>
            if sd.sdp ≠ pc.lastAnswer then
              (some newSDPDoesNotMatchAnswer, pc)
            else
              let (nextState, err) :=
                checkNextSignalingState cur .stable .opSetLocal sd.sdpType
              let pc1 :=
                if err = none then
                  { pc with
                      currentLocalDescription := some sd
                      currentRemoteDescription := pc.pendingRemoteDescription
                      pendingRemoteDescription := none
                      pendingLocalDescription := none }
                else pc
              commit pc1 nextState err
        | .rollback =>
            let (nextState, err) :=
              checkNextSignalingState cur .stable .opSetLocal sd.sdpType
            let pc1 :=
              if err = none then { pc with pendingLocalDescription := none }
              else pc
            commit pc1 nextState err
        | .pranswer =>
            if sd.sdp ≠ pc.lastAnswer then
              (some newSDPDoesNotMatchAnswer, pc)
            else
              let (nextState, err) :=
                checkNextSignalingState cur .haveLocalPranswer .opSetLocal sd.sdpType
              let pc1 :=
                if err = none then { pc with pendingLocalDescription := some sd }
                else pc
              commit pc1 nextState err
        | .unknownType =>
            (some (.operationErrorMsg
              ("invalid state change op: " ++ StateChangeOp.goString op ++
                "(" ++ SDPType.goString sd.sdpType ++ ")")), pc)
    | .opSetRemote =>
        match sd.sdpType with
        | .offer =>
            let (nextState, err) :=
              checkNextSignalingState cur .haveRemoteOffer .opSetRemote sd.sdpType
            let pc1 :=
              if err = none then { pc with pendingRemoteDescription := some sd }
              else pc
            commit pc1 nextState err
        | .answer =>
            let (nextState, err) :=
              checkNextSignalingState cur .stable .opSetRemote sd.sdpType
            let pc1 :=
              if err = none then
                { pc with
                    currentRemoteDescription := some sd
                    currentLocalDescription := pc.pendingLocalDescription
                    pendingRemoteDescription := none
                    pendingLocalDescription := none }
              else pc
            commit pc1 nextState err
        | .rollback =>
            let (nextState, err) :=
              checkNextSignalingState cur .stable .opSetRemote sd.sdpType
            let pc1 :=
              if err = none then { pc with pendingRemoteDescription := none }
              else pc
            commit pc1 nextState err
        | .pranswer =>
            let (nextState, err) :=
              checkNextSignalingState cur .haveRemotePranswer .opSetRemote sd.sdpType
            let pc1 :=
              if err = none then { pc with pendingRemoteDescription := some sd }
              else pc
            commit pc1 nextState err
        | .unknownType =>
            (some (.operationErrorMsg
              ("invalid state change op: " ++ StateChangeOp.goString op ++
                "(" ++ SDPType.goString sd.sdpType ++ ")")), pc)

/-- Translation of PeerConnection.RemoteDescription: the pending remote
description when set, else the current one. -/
def RemoteDescription (pc : PCState) : Option SessionDescription :=
  match pc.pendingRemoteDescription with
  | some d => some d
  | none => pc.currentRemoteDescription

/-- Translation of PeerConnection.LocalDescription restricted to what the
embedded code reads from it (whether a local description exists).  The
candidate population performed by populateLocalCandidates rewrites the SDP
text with external gatherer data but never turns a description into nil or
vice versa. -/
def LocalDescription (pc : PCState) : Option SessionDescription :=
  match pc.pendingLocalDescription with
  | some d => some d
  | none => pc.currentLocalDescription

/-- Outcomes of the external ICE gatherer calls made by the description
setters: whether the agent is in trickle mode and whether
SignalCandidates / Gather succeed. -/
structure GathererExternal where
  agentIsTrickle : Bool
  signalOk : Bool
  gatherOk : Bool
deriving DecidableEq, Repr

/-- Translation of PeerConnection.SetLocalDescription.  The SDP text
parser is external; it appears as the parseSDP parameter and its failure is
returned before setDescription runs, exactly as in the source. -/
def SetLocalDescription (parseSDP : String → Option ParsedSDP)
    (ext : GathererExternal) (pc : PCState) (desc : SessionDescription) :
    Option RTCErr × PCState :=
  if pc.isClosed then
    (some (.invalidState .connectionClosed), pc)
  else
    let substituted : Except RTCErr SessionDescription :=
      if desc.sdp = "" then
        match desc.sdpType with
        | .answer => .ok { desc with sdp := pc.lastAnswer }
        | .pranswer => .ok { desc with sdp := pc.lastAnswer }
        | .offer => .ok { desc with sdp := pc.lastOffer }
        | _ =>
            .error (.invalidModificationMsg
              ("invalid SDP type supplied to SetLocalDescription(): " ++
                SDPType.goString desc.sdpType))
      else .ok desc
    match substituted with
    | .error e => (some e, pc)
    | .ok desc1 =>
        match parseSDP desc1.sdp with
        | none => (some (.plain "sdp unmarshal error"), pc)
        | some tree =>
            let desc2 := { desc1 with parsed := some tree }
            match setDescription pc desc2 .opSetLocal with
            | (some e, pc1) => (some e, pc1)
            | (none, pc1) =>
                if !ext.agentIsTrickle then
                  if ext.signalOk then (none, pc1)
                  else (some (.plain "signal candidates error"), pc1)
                else if desc2.sdpType = .answer then
                  if ext.gatherOk then (none, pc1)
                  else (some (.plain "gather error"), pc1)
                else (none, pc1)

/-- First attribute value for a key, mirroring the Attribute method of the
external sdp package: value of the first attribute with the key, plus a
found flag. -/
def findAttribute (attrs : List SDPAttribute) (key : String) :
    Option String :=
  (attrs.find? (fun a => a.key = key)).map (fun a => a.value)

/-- The string form of an attribute as produced by the sdp package
(key or key:value), used for the ice-ufrag / ice-pwd prefix checks. -/
def attributeString (a : SDPAttribute) : String :=
  if a.value = "" then a.key else a.key ++ ":" ++ a.value

/-- Space splitting on the character list, mirroring strings.Split with a
single-space separator. -/
def splitCharsOnSpace : List Char → List (List Char)
  | [] => [[]]
  | c :: rest =>
      let r := splitCharsOnSpace rest
      if c = ' ' then [] :: r
      else
        match r with
        | [] => [[c]]
        | w :: ws => (c :: w) :: ws

/-- Translation of the Go strings.Split(s, " ") call used on the
fingerprint attribute. -/
def splitBySpace (s : String) : List String :=
  (splitCharsOnSpace s.data).map (fun cs => String.mk cs)

/-- Collecting the DTLS fingerprint as SetRemoteDescription does: the first
session level fingerprint attribute, else the first media level one in
media order. -/
def collectFingerprint (tree : ParsedSDP) : Option String :=
  match findAttribute tree.attributes "fingerprint" with
  | some v => some v
  | none =>
      tree.mediaDescriptions.findSome?
        (fun m => findAttribute m.attributes "fingerprint")

/-- Whether any media section holds an ICE candidate attribute whose
handling (parse and AddRemoteCandidate) is delegated to external code. -/
def hasCandidateAttribute (tree : ParsedSDP) : Bool :=
  tree.mediaDescriptions.any
    (fun m => m.attributes.any (fun a => a.key = "candidate"))

/-- Outcomes of the external calls made by SetRemoteDescription: candidate
parsing / delivery to the ICE transport, the gatherer mode and Gather. -/
structure RemoteExternal where
  candidateOk : Bool
  agentIsTrickle : Bool
  gatherOk : Bool
deriving DecidableEq, Repr

/-- Translation of PeerConnection.SetRemoteDescription.  The startup
goroutine (ICE, DTLS, SRTP, senders, SCTP, deferred data channels) runs
concurrently and has no effect on the returned error; it is elided.  The
SCTP transport construction is recorded in the attached flag. -/
def SetRemoteDescription (parseSDP : String → Option ParsedSDP)
    (ext : RemoteExternal) (pc : PCState) (desc : SessionDescription) :
    Option RTCErr × PCState :=
  if pc.currentRemoteDescription.isSome then
    (some (.plain
      "remoteDescription is already defined, SetRemoteDescription can only be called once"),
      pc)
  else if pc.isClosed then
    (some (.invalidState .connectionClosed), pc)
  else
    match parseSDP desc.sdp with
    | none => (some (.plain "sdp unmarshal error"), pc)
    | some tree =>
        let desc1 := { desc with parsed := some tree }
        match setDescription pc desc1 .opSetRemote with
        | (some e, pc1) => (some e, pc1)
        | (none, pc1) =>
            if hasCandidateAttribute tree ∧ ¬ ext.candidateOk then
              (some (.plain "candidate error"), pc1)
            else
              match collectFingerprint tree with
              | none => (some (.plain "could not find fingerprint"), pc1)
              | some fp =>
                  if (splitBySpace fp).length ≠ 2 then
                    (some (.plain "invalid fingerprint"), pc1)
                  else
                    let pc2 := { pc1 with sctpTransportAttached := true }
                    if (desc1.sdpType = .answer ∨ desc1.sdpType = .pranswer) ∧
                        ext.agentIsTrickle then
                      if ext.gatherOk then (none, pc2)
                      else (some (.plain "gather error"), pc2)
                    else (none, pc2)

/-- Outcomes of the external transport Stop calls made by Close: error
texts collected from the ICE, DTLS and SCTP transports and from each
transceiver Stop. -/
structure CloseExternal where
  iceStopErr : Option String
  dtlsStopErr : Option String
  sctpStopErr : Option String
  transceiverStopErrs : List String
deriving DecidableEq, Repr

/-- Translation of PeerConnection.Close: early return when already closed,
otherwise mark closed, move the signaling and connection states, stop the
transports (external) and flatten the collected errors. -/
def Close (pc : PCState) (ext : CloseExternal) : Option RTCErr × PCState :=
  if pc.isClosed then
    (none, pc)
  else
    let errs : List String :=
      (match ext.iceStopErr with | some e => [e] | none => []) ++
      (match ext.dtlsStopErr with | some e => [e] | none => []) ++
      (match pc.sctpTransportAttached, ext.sctpStopErr with
        | true, some e => [e]
        | _, _ => []) ++
      ext.transceiverStopErrs
    let pc1 :=
      { pc with
          isClosed := true
          signalingState := .closed
          connectionState := .pcClosed }
    ((if errs.isEmpty then none else some (.plain (String.intercalate "\n" errs))),
      pc1)

/-- Translation of the getPreferredDirections closure inside
satisfyTypeAndDirection. -/
def getPreferredDirections (remoteDirection : RTPTransceiverDirection) :
    List RTPTransceiverDirection :=
  match remoteDirection with
  | .sendrecv => [.recvonly, .sendrecv]
  | .sendonly => [.recvonly, .sendrecv]
  | .recvonly => [.sendonly, .sendrecv]
  | _ => []

/-- The inner loop of satisfyTypeAndDirection: scan the transceivers in
list order for the first one with the requested kind and direction; on a
hit return it with the list with that element removed (the Go slice append
of the parts before and after the index). -/
def scanTransceivers (remoteKind : RTPCodecType)
    (pd : RTPTransceiverDirection) :
    List RTPTransceiver → Option (RTPTransceiver × List RTPTransceiver)
  | [] => none
  | t :: rest =>
      if t.kind = remoteKind ∧ pd = t.direction then
        some (t, rest)
      else
        (scanTransceivers remoteKind pd rest).map
          (fun r => (r.1, t :: r.2))

/-- The outer loop of satisfyTypeAndDirection over the preferred
directions. -/
def satisfyGo (remoteKind : RTPCodecType) (lt : List RTPTransceiver) :
    List RTPTransceiverDirection →
    Option (RTPTransceiver × List RTPTransceiver)
  | [] => none
  | pd :: rest =>
      match scanTransceivers remoteKind pd lt with
      | some r => some r
      | none => satisfyGo remoteKind lt rest

/-- Translation of satisfyTypeAndDirection: pluck the first transceiver
matching the kind and a preferred direction, or return a fresh inactive
transceiver of the requested kind with the list unchanged. -/
def satisfyTypeAndDirection (remoteKind : RTPCodecType)
    (remoteDirection : RTPTransceiverDirection)
    (localTransceivers : List RTPTransceiver) :
    RTPTransceiver × List RTPTransceiver :=
  match satisfyGo remoteKind localTransceivers
      (getPreferredDirections remoteDirection) with
  | some r => r
  | none =>
      ({ sender := none
         receiver := none
         direction := .inactive
         stopped := false
         kind := remoteKind }, localTransceivers)

/-- Go String() rendering of a transceiver direction (the SDP attribute). -/
def RTPTransceiverDirection.goString : RTPTransceiverDirection → String
  | .unknownDirection => ""
  | .sendrecv => "sendrecv"
  | .sendonly => "sendonly"
  | .recvonly => "recvonly"
  | .inactive => "inactive"

/-- One codec of the external media engine (only the fields used for the
m-line formats and rtpmap attributes are kept). -/
structure Codec where
  payloadType : Nat
  name : String
deriving DecidableEq, Repr

/-- Translation of PeerConnection.addTransceiverSDP restricted to the
produced media section.  The per-sender ssrc and msid source lines and the
local ICE candidate attributes carry external gatherer and track data and
are elided; they never carry a mid or direction.  When the media engine
has no codecs for the kind, the explicitly rejected section (port 0,
format 0, no attributes) is emitted. -/
def addTransceiverSDP (codecsByKind : RTPCodecType → List Codec)
    (midValue ufrag pwd dtlsRole : String)
    (transceivers : List RTPTransceiver) : Except RTCErr MediaDescription :=
  match transceivers with
  | [] => .error (.plain "addTransceiverSDP() called with 0 transceivers")
  | t :: _ =>
      let codecs := codecsByKind t.kind
      if codecs.isEmpty then
        .ok { mediaName :=
                { media := t.kind.goString
                  port := 0
                  protos := ["UDP", "TLS", "RTP", "SAVPF"]
                  formats := ["0"] }
              attributes := [] }
      else
        .ok { mediaName :=
                { media := t.kind.goString
                  port := 9
                  protos := ["UDP", "TLS", "RTP", "SAVPF"]
                  formats := codecs.map (fun c => toString c.payloadType) }
              attributes :=
                [{ key := "setup", value := dtlsRole },
                 { key := "mid", value := midValue },
                 { key := "ice-ufrag", value := ufrag },
                 { key := "ice-pwd", value := pwd },
                 { key := "rtcp-mux", value := "" },
                 { key := "rtcp-rsize", value := "" }] ++
                codecs.map (fun c =>
                  { key := "rtpmap"
                    value := toString c.payloadType ++ " " ++ c.name }) ++
                [{ key := t.direction.goString, value := "" }] }

/-- Translation of PeerConnection.addDataMediaSection (the local ICE
candidate attributes are elided as in addTransceiverSDP). -/
def addDataMediaSection (midValue ufrag pwd dtlsRole : String) :
    MediaDescription :=
  { mediaName :=
      { media := "application"
        port := 9
        protos := ["DTLS", "SCTP"]
        formats := ["5000"] }
    attributes :=
      [{ key := "setup", value := dtlsRole },
       { key := "mid", value := midValue },
       { key := "sendrecv", value := "" },
       { key := "sctpmap:5000 webrtc-datachannel 1024", value := "" },
       { key := "ice-ufrag", value := ufrag },
       { key := "ice-pwd", value := pwd }] }

/-- Translation of PeerConnection.getMidValue: the value of the first mid
attribute, or the empty string. -/
def getMidValue (media : MediaDescription) : String :=
  match media.attributes.find? (fun a => a.key = "mid") with
  | some a => a.value
  | none => ""

/-- Translation of PeerConnection.getPeerDirection: the first attribute
whose key decodes to a direction. -/
def getPeerDirection (media : MediaDescription) : RTPTransceiverDirection :=
  match media.attributes.findSome? (fun a =>
      let d := NewRTPTransceiverDirection a.key
      if d ≠ .unknownDirection then some d else none) with
  | some d => d
  | none => .unknownDirection

/-- The detection regex (?i)(audio|video|data) anchored on both sides of
the Go source; ASCII case folding is exact for these three words. -/
def planBDetectionMatch (s : String) : Bool :=
  let l := String.mk (s.data.map Char.toLower)
  l = "audio" || l = "video" || l = "data"

/-- Translation of PeerConnection.descriptionIsPlanB. -/
def descriptionIsPlanB (desc : Option SessionDescription) : Bool :=
  match desc with
  | none => false
  | some d =>
      match d.parsed with
      | none => false
      | some tree =>
          tree.mediaDescriptions.any
            (fun m => planBDetectionMatch (getMidValue m))

/-- The session level group attribute value built by appendBundle. -/
def bundleAttributeValue (mids : List String) : String :=
  mids.foldl (fun acc m => acc ++ " " ++ m) "BUNDLE"

/-- The non-Plan-B transceiver loop of CreateOffer: one media section per
transceiver in registry order, mid and bundle entry being the decimal
bundle count at the time the section is appended. -/
def offerSectionsUnified (codecsByKind : RTPCodecType → List Codec)
    (ufrag pwd : String) :
    List RTPTransceiver → Nat →
    Except RTCErr (List MediaDescription × List String)
  | [], _ => .ok ([], [])
  | t :: rest, i => do
      let m ← addTransceiverSDP codecsByKind (toString i) ufrag pwd "actpass" [t]
      let (ss, bs) ← offerSectionsUnified codecsByKind ufrag pwd rest (i + 1)
      .ok (m :: ss, toString i :: bs)

/-- Translation of PeerConnection.CreateOffer restricted to the data the
claims observe: the emitted media sections and the bundle mid list (the
group attribute value is bundleAttributeValue of that list).  The DTLS
fingerprint, the ICE parameters and candidates, the final marshalling and
the lastOffer update involve external collaborators and are elided. -/
def CreateOffer (codecsByKind : RTPCodecType → List Codec)
    (ufrag pwd : String) (pc : PCState) (optionsProvided : Bool) :
    Except RTCErr (List MediaDescription × List String) :=
  if optionsProvided then .error (.plain "TODO handle options")
  else if pc.idpLoginURL.isSome then
    .error (.plain "TODO handle identity provider")
  else if pc.isClosed then .error (.invalidState .connectionClosed)
  else if pc.configuration.sdpSemantics = .planB then do
    let video := pc.rtpTransceivers.filter (fun t => t.kind = .video)
    let audio := pc.rtpTransceivers.filter (fun t => t.kind = .audio)
    let (secsV, bunV) ←
      if video.isEmpty then pure ([], [])
      else do
        let m ← addTransceiverSDP codecsByKind "video" ufrag pwd "actpass" video
        pure ([m], ["video"])
    let (secsA, bunA) ←
      if audio.isEmpty then pure ([], [])
      else do
        let m ← addTransceiverSDP codecsByKind "audio" ufrag pwd "actpass" audio
        pure ([m], ["audio"])
    let dataSec := addDataMediaSection "data" ufrag pwd "actpass"
    .ok (secsV ++ secsA ++ [dataSec], bunV ++ bunA ++ ["data"])
  else do
    let (secs, bun) ←
      offerSectionsUnified codecsByKind ufrag pwd pc.rtpTransceivers 0
    let dataMid := toString bun.length
    let dataSec := addDataMediaSection dataMid ufrag pwd "actpass"
    .ok (secs ++ [dataSec], bun ++ [dataMid])

lemma scanTransceivers_some_length {remoteKind : RTPCodecType}
    {pd : RTPTransceiverDirection} {lt l : List RTPTransceiver}
    {t : RTPTransceiver}
    (h : scanTransceivers remoteKind pd lt = some (t, l)) :
    l.length + 1 = lt.length := by
  induction lt generalizing t l with
  | nil => simp [scanTransceivers] at h
  | cons hd tl ih =>
      rw [scanTransceivers] at h
      by_cases hc : hd.kind = remoteKind ∧ pd = hd.direction
      · rw [if_pos hc] at h
        injection h with h1
        have h2 : tl = l := congrArg Prod.snd h1
        subst h2
        simp
      · rw [if_neg hc] at h
        rcases hrec : scanTransceivers remoteKind pd tl with _ | ⟨rt, rl⟩
        · rw [hrec] at h
          simp at h
        · rw [hrec] at h
          simp only [Option.map] at h
          injection h with h1
          have h2 : hd :: rl = l := congrArg Prod.snd h1
          subst h2
          have := ih hrec
          simp only [List.length_cons]
          omega

lemma satisfyGo_some_length {remoteKind : RTPCodecType}
    {lt l : List RTPTransceiver} {t : RTPTransceiver}
    {pds : List RTPTransceiverDirection}
    (h : satisfyGo remoteKind lt pds = some (t, l)) :
    l.length + 1 = lt.length := by
  induction pds with
  | nil => simp [satisfyGo] at h
  | cons pd rest ih =>
      rw [satisfyGo] at h
      rcases hscan : scanTransceivers remoteKind pd lt with _ | ⟨rt, rl⟩
      · rw [hscan] at h
        exact ih h
      · rw [hscan] at h
        injection h with h1
        have h2 : rl = l := congrArg Prod.snd h1
        have h3 : rt = t := congrArg Prod.fst h1
        subst h2
        exact scanTransceivers_some_length hscan

lemma satisfyTypeAndDirection_shrink (remoteKind : RTPCodecType)
    (remoteDirection : RTPTransceiverDirection)
    (lt : List RTPTransceiver)
    (h : (satisfyTypeAndDirection remoteKind remoteDirection lt).1.direction ≠
      .inactive) :
    (satisfyTypeAndDirection remoteKind remoteDirection lt).2.length <
      lt.length := by
  rcases hgo : satisfyGo remoteKind lt (getPreferredDirections remoteDirection)
    with _ | ⟨rt, rl⟩
  · unfold satisfyTypeAndDirection at h
    rw [hgo] at h
    simp at h
  · unfold satisfyTypeAndDirection
    rw [hgo]
    have := satisfyGo_some_length hgo
    simp only []
    omega

/-- The Plan-B fill loop of addAnswerMediaTransceivers: keep satisfying the
same kind and direction until the fresh inactive transceiver signals
exhaustion, returning the pulled transceivers and the remaining pool. -/
def collectPlanB (kind : RTPCodecType) (dir : RTPTransceiverDirection)
    (lt : List RTPTransceiver) :
    List RTPTransceiver × List RTPTransceiver :=
  match h : satisfyTypeAndDirection kind dir lt with
  | (t, lt1) =>
      if hdir : t.direction = .inactive then ([], lt1)
      else
        let r := collectPlanB kind dir lt1
        (t :: r.1, r.2)
termination_by lt.length
decreasing_by
  have hs := satisfyTypeAndDirection_shrink kind dir lt
  rw [h] at hs
  exact hs (by simpa using hdir)

/-- The media section loop of addAnswerMediaTransceivers, threading the
local transceiver pool through the sections of the remote description and
collecting the emitted sections and bundle mids. -/
def answerMediaLoop (codecsByKind : RTPCodecType → List Codec)
    (ufrag pwd : String) (sem : SDPSemantics) (detectedPlanB : Bool) :
    List MediaDescription → List RTPTransceiver →
    Except RTCErr (List MediaDescription × List String)
  | [], _ => .ok ([], [])
  | media :: rest, lt =>
      let midValue := getMidValue media
      if midValue = "" then
        .error (.plain "RemoteDescription contained media section without mid value")
      else if media.mediaName.media = "application" then do
        let sec := addDataMediaSection midValue ufrag pwd "active"
        let (ss, bs) ←
          answerMediaLoop codecsByKind ufrag pwd sem detectedPlanB rest lt
        .ok (sec :: ss, midValue :: bs)
      else
        let kind := NewRTPCodecType media.mediaName.media
        let direction := getPeerDirection media
        if kind = .unknownCodecType ∨ direction = .unknownDirection then
          answerMediaLoop codecsByKind ufrag pwd sem detectedPlanB rest lt
        else
          let (t, lt1) := satisfyTypeAndDirection kind direction lt
          let emit : List RTPTransceiver → List RTPTransceiver →
              Except RTCErr (List MediaDescription × List String) :=
            fun mediaTransceivers ltNext => do
              let m ← addTransceiverSDP codecsByKind midValue ufrag pwd "active"
                mediaTransceivers
              let (ss, bs) ←
                answerMediaLoop codecsByKind ufrag pwd sem detectedPlanB rest ltNext
              .ok (m :: ss, midValue :: bs)
          match sem with
          | .unifiedPlanWithFallback =>
              if ¬ detectedPlanB then
                emit [t] lt1
              else
                -- fallthrough into the Plan-B body (its detection test passes)
                let (more, lt2) := collectPlanB kind direction lt1
                emit (t :: more) lt2
          | .planB =>
              if ¬ detectedPlanB then
                .error (.typeError .incorrectSDPSemantics)
              else
                let (more, lt2) := collectPlanB kind direction lt1
                emit (t :: more) lt2
          | .unifiedPlan =>
              if detectedPlanB then
                .error (.typeError .incorrectSDPSemantics)
              else
                emit [t] lt1

/-- Translation of PeerConnection.CreateAnswer restricted to the emitted
sections and bundle mids, as for CreateOffer.  The fingerprint, the ICE
data, the marshalling and the lastAnswer update are external and elided.
A remote description with no parsed tree would fault in Go; the model is
only applied to parsed descriptions. -/
def CreateAnswer (codecsByKind : RTPCodecType → List Codec)
    (ufrag pwd : String) (pc : PCState) (optionsProvided : Bool) :
    Except RTCErr (List MediaDescription × List String) :=
  if optionsProvided then .error (.plain "TODO handle options")
  else if (RemoteDescription pc).isNone then
    .error (.invalidState .noRemoteDescription)
  else if pc.idpLoginURL.isSome then
    .error (.plain "TODO handle identity provider")
  else if pc.isClosed then .error (.invalidState .connectionClosed)
  else
    let detectedPlanB := descriptionIsPlanB (RemoteDescription pc)
    let medias :=
      match RemoteDescription pc with
      | some rd => (rd.parsed.map (fun tr => tr.mediaDescriptions)).getD []
      | none => []
    answerMediaLoop codecsByKind ufrag pwd pc.configuration.sdpSemantics
      detectedPlanB medias pc.rtpTransceivers

/-- The id scan loop of generateDataChannelID: step by two from the parity
start while strictly below the bound, returning the first id absent from
the data channel map. -/
def genIDLoop (dcs : List Nat) (bound : Nat) (id : Nat) : Except RTCErr Nat :=
  if id < bound then
    if dcs.contains id then genIDLoop dcs bound (id + 2)
    else .ok id
  else .error (.operationErrorCode .maxDataChannelID)
termination_by bound - id

/-- Translation of PeerConnection.generateDataChannelID.  The ids and the
channel bound are uint16 in Go; the bound max-1 underflows to 65535 when
the external MaxChannels() reports 0 (in that corner the Go loop can also
wrap past 65535, which no finite model reproduces and no claim touches). -/
def generateDataChannelID (client : Bool) (maxCh : Nat) (dcs : List Nat) :
    Except RTCErr Nat :=
  let start := if client then 0 else 1
  let bound := if maxCh = 0 then 65535 else maxCh - 1
  genIDLoop dcs bound start

/-- Modelled from the spec: the package constant sctpMaxChannels lives
outside src/peerconnection.go; the spec describes it as the fixed bound
used while no SCTP transport is attached (a uint16 bound). -/
def sctpMaxChannels : Nat := 65535

/-- Options of CreateDataChannel. -/
structure DataChannelInit where
  id : Option Nat
  ordered : Option Bool
  maxPacketLifeTime : Option Nat
  maxRetransmits : Option Nat
deriving DecidableEq, Repr

/-- The parameter record CreateDataChannel assembles before handing it to
the external data channel constructor. -/
structure DataChannelParameters where
  label : String
  ordered : Bool
  chanID : Nat
  maxPacketLifeTime : Option Nat
  maxRetransmits : Option Nat
deriving DecidableEq, Repr

/-- Map insertion for the stream-id keyed data channel map. -/
def insertChannelID (dcs : List Nat) (id : Nat) : List Nat :=
  if dcs.contains id then dcs else id :: dcs

/-- Translation of PeerConnection.CreateDataChannel.  The external data
channel constructor and the open-when-SCTP-ready call cannot fail in a way
the claims observe and are elided; the result keeps the allocated stream
id and the successor state. -/
def CreateDataChannel (pc : PCState) (label : String)
    (options : Option DataChannelInit) : Except RTCErr (Nat × PCState) :=
  if pc.isClosed then .error (.invalidState .connectionClosed)
  else
    let maxCh :=
      if pc.sctpTransportAttached then pc.sctpMaxChannels else sctpMaxChannels
    let idRes : Except RTCErr Nat :=
      match options with
      | none => generateDataChannelID true maxCh pc.dataChannels
      | some o =>
          match o.id with
          | none => generateDataChannelID true maxCh pc.dataChannels
          | some i => .ok i
    match idRes with
    | .error e => .error e
    | .ok id =>
        let params0 : DataChannelParameters :=
          { label := label
            ordered := true
            chanID := id
            maxPacketLifeTime := none
            maxRetransmits := none }
        let params :=
          match options with
          | none => params0
          | some o =>
              { params0 with
                  ordered := o.ordered.getD true
                  maxPacketLifeTime := o.maxPacketLifeTime
                  maxRetransmits := o.maxRetransmits }
        if params.maxPacketLifeTime.isSome ∧ params.maxRetransmits.isSome then
          .error (.typeError .retransmitsOrPacketLifeTime)
        else
          .ok (id,
            { pc with
                dataChannels := insertChannelID pc.dataChannels params.chanID
                dataChannelsRequested := pc.dataChannelsRequested + 1 })

/-- Outcomes of the external candidate handling of AddICECandidate: the
sdp attribute parse and the delivery to the ICE transport. -/
structure CandidateExternal where
  parseOk : Bool
  addOk : Bool
deriving DecidableEq, Repr

/-- Translation of PeerConnection.AddICECandidate: only the missing remote
description is checked locally; the prefix strip, the candidate parse and
AddRemoteCandidate are external.  Note there is no isClosed check. -/
def AddICECandidate (ext : CandidateExternal) (pc : PCState)
    (candidate : String) : Option RTCErr :=
  if (RemoteDescription pc).isNone then
    some (.invalidState .noRemoteDescription)
  else if ¬ ext.parseOk then some (.plain "candidate parse error")
  else if ¬ ext.addOk then some (.plain "add remote candidate error")
  else none

/-- Outcomes of the external calls of WriteRTCP: the rtcp marshal, the
SRTCP session acquisition, the write stream open and the write itself. -/
structure RTCPExternal where
  marshalOk : Bool
  srtcpSessionOk : Bool
  openWriteStreamOk : Bool
  writeOk : Bool
deriving DecidableEq, Repr

/-- Translation of PeerConnection.WriteRTCP.  The state parameter is never
read: the source consults no guarded field (in particular not isClosed),
and a failed SRTCP session acquisition returns nil, not an error. -/
def WriteRTCP (_pc : PCState) (ext : RTCPExternal) : Option RTCErr :=
  if ¬ ext.marshalOk then some (.plain "rtcp marshal error")
  else if ¬ ext.srtcpSessionOk then none
  else if ¬ ext.openWriteStreamOk then
    some (.plain "WriteRTCP failed to open WriteStream")
  else if ¬ ext.writeOk then some (.plain "rtcp write error")
  else none

/-- Translation of PeerConnection.SetConfiguration.  Certificate equality
(count plus pairwise Equals) collapses to list equality on the opaque
tags; per-server validation is the external serverValidate parameter.  As
in the source, configuration fields already written before a failing later
step remain written. -/
def SetConfiguration (serverValidate : Nat → Option RTCErr) (pc : PCState)
    (c : Configuration) : Option RTCErr × PCState :=
  if pc.isClosed then (some (.invalidState .connectionClosed), pc)
  else if c.peerIdentity ≠ "" ∧ c.peerIdentity ≠ pc.configuration.peerIdentity then
    (some (.invalidModificationCode .modifyingPeerIdentity), pc)
  else
    let cfg1 :=
      if c.peerIdentity ≠ "" then
        { pc.configuration with peerIdentity := c.peerIdentity }
      else pc.configuration
    if c.certificates ≠ [] ∧ c.certificates ≠ cfg1.certificates then
      (some (.invalidModificationCode .modifyingCertificates),
        { pc with configuration := cfg1 })
    else
      let cfg2 :=
        if c.certificates ≠ [] then { cfg1 with certificates := c.certificates }
        else cfg1
      if c.bundlePolicy ≠ .unspecifiedBundlePolicy ∧
          c.bundlePolicy ≠ cfg2.bundlePolicy then
        (some (.invalidModificationCode .modifyingBundlePolicy),
          { pc with configuration := cfg2 })
      else
        let cfg3 :=
          if c.bundlePolicy ≠ .unspecifiedBundlePolicy then
            { cfg2 with bundlePolicy := c.bundlePolicy }
          else cfg2
        if c.rtcpMuxPolicy ≠ .unspecifiedRTCPMuxPolicy ∧
            c.rtcpMuxPolicy ≠ cfg3.rtcpMuxPolicy then
          (some (.invalidModificationCode .modifyingRTCPMuxPolicy),
            { pc with configuration := cfg3 })
        else
          let cfg4 :=
            if c.rtcpMuxPolicy ≠ .unspecifiedRTCPMuxPolicy then
              { cfg3 with rtcpMuxPolicy := c.rtcpMuxPolicy }
            else cfg3
          if c.iceCandidatePoolSize ≠ 0 ∧
              cfg4.iceCandidatePoolSize ≠ c.iceCandidatePoolSize ∧
              (LocalDescription pc).isSome then
            (some (.invalidModificationCode .modifyingICECandidatePoolSize),
              { pc with configuration := cfg4 })
          else
            let cfg5 :=
              if c.iceCandidatePoolSize ≠ 0 then
                { cfg4 with iceCandidatePoolSize := c.iceCandidatePoolSize }
              else cfg4
            let cfg6 :=
              if c.iceTransportPolicy ≠ .unspecifiedICETransportPolicy then
                { cfg5 with iceTransportPolicy := c.iceTransportPolicy }
              else cfg5
            if c.iceServers ≠ [] then
              match c.iceServers.findSome? serverValidate with
              | some e => (some e, { pc with configuration := cfg6 })
              | none =>
                  (none, { pc with configuration :=
                    { cfg6 with iceServers := c.iceServers } })
            else (none, { pc with configuration := cfg6 })

/-- The transceiver reuse test of AddTrack: not stopped, sender present
that has not sent, receiver present with a track of the new track's kind. -/
def addTrackReuseCond (track : Track) (t : RTPTransceiver) : Bool :=
  !t.stopped &&
  t.sender.isSome &&
  ((t.sender.map (fun s => !s.hasSentFlag)).getD false) &&
  t.receiver.isSome &&
  (((t.receiver.bind (fun r => r.track)).map (fun tr => tr.kind)) =
    some track.kind)

/-- Scan for the first reusable transceiver and install the track on its
sender (setSendingTrack, modelled from the spec: it lives outside
src/peerconnection.go and installs the sending track). -/
def addTrackReuse (track : Track) :
    List RTPTransceiver → Option (List RTPTransceiver)
  | [] => none
  | t :: rest =>
      if addTrackReuseCond track t then
        some ({ t with
                  sender := t.sender.map (fun s => { s with track := some track }) }
              :: rest)
      else (addTrackReuse track rest).map (fun l => t :: l)

/-- Translation of PeerConnection.AddTrack: closed check, reuse of a
compatible transceiver, else a fresh sendrecv transceiver built from the
external receiver and sender constructors and appended to the registry. -/
def AddTrack (pc : PCState) (track : Track) : Option RTCErr × PCState :=
  if pc.isClosed then (some (.invalidState .connectionClosed), pc)
  else
    match addTrackReuse track pc.rtpTransceivers with
    | some lts => (none, { pc with rtpTransceivers := lts })
    | none =>
        let t : RTPTransceiver :=
          { sender := some { track := some track, hasSentFlag := false }
            receiver := some { track := none }
            direction := .sendrecv
            stopped := false
            kind := track.kind }
        (none, { pc with rtpTransceivers := pc.rtpTransceivers ++ [t] })

/-! Theorems about the embedded PeerConnection. -/

/-- C10: the internal setDescription step shared by SetLocalDescription and
SetRemoteDescription is atomic on failure: whenever it returns an error
(closed connection, SDP mismatch with the last offer or answer, forbidden
signaling transition, or unrecognized type), the signaling state and all
four description slots are unchanged and the signaling-state-change
callback is not dispatched (the whole state, ghost callback trace
included, is returned untouched). -/
theorem setDescription_atomic_on_failure (pc : PCState)
    (sd : SessionDescription) (op : StateChangeOp)
    (h : ((setDescription pc sd op).1).isSome) :
    (setDescription pc sd op).2 = pc := by
  obtain ⟨st, ssdp, spar⟩ := sd
  unfold setDescription at h ⊢
  by_cases hcl : pc.isClosed
  · simp [hcl]
  · simp only [hcl, Bool.false_eq_true, if_false] at h ⊢
    cases op <;> cases st <;>
      simp only [checkNextSignalingState, fireSignalingStateChange] at h ⊢ <;>
      split_ifs at h ⊢ <;>
      simp_all

/-- Concrete instantiation for the C10 theorem: a closed connection
rejects the call and the state is returned untouched. -/
def pcClosedEx : PCState := { initialPCState with isClosed := true }

/-- Witness for C10: at a concrete closed state the call fails and the
state is unchanged. -/
theorem setDescription_atomic_on_failure_witness :
    (setDescription pcClosedEx
      { sdpType := .offer, sdp := "v=0", parsed := none } .opSetLocal).2 =
      pcClosedEx :=
  setDescription_atomic_on_failure pcClosedEx
    { sdpType := .offer, sdp := "v=0", parsed := none } .opSetLocal (by decide)

/-- C1: when setDescription succeeds installing an answer, the signaling
state becomes stable, the answer is stored as the current description of
its side, the pending description of the opposite side is promoted to that
side's current description, and both pending slots are null afterwards;
moreover the origin state was one of the two the transition table permits
for that operation. -/
theorem setDescription_answer_promotes (pc pc1 : PCState)
    (sd : SessionDescription) (op : StateChangeOp)
    (hans : sd.sdpType = .answer)
    (h : setDescription pc sd op = (none, pc1)) :
    pc1.signalingState = .stable ∧
    pc1.pendingLocalDescription = none ∧
    pc1.pendingRemoteDescription = none ∧
    (op = .opSetLocal →
      pc1.currentLocalDescription = some sd ∧
      pc1.currentRemoteDescription = pc.pendingRemoteDescription ∧
      (pc.signalingState = .haveRemoteOffer ∨
        pc.signalingState = .haveLocalPranswer)) ∧
    (op = .opSetRemote →
      pc1.currentRemoteDescription = some sd ∧
      pc1.currentLocalDescription = pc.pendingLocalDescription ∧
      (pc.signalingState = .haveLocalOffer ∨
        pc.signalingState = .haveRemotePranswer)) := by
  obtain ⟨st, ssdp, spar⟩ := sd
  cases hans
  unfold setDescription at h
  by_cases hcl : pc.isClosed
  · simp [hcl] at h
  · simp only [hcl, Bool.false_eq_true, if_false] at h
    cases op <;>
      simp only [checkNextSignalingState, signalingTransitionAllowed,
        fireSignalingStateChange] at h <;>
      split_ifs at h with h1 h2 <;>
      simp_all [Prod.ext_iff] <;>
      (subst h; simp_all)

/-- Concrete state for the C1 witness: have-remote-offer with a pending
remote offer and a matching last answer. -/
def pcC1ex : PCState :=
  { initialPCState with
      signalingState := .haveRemoteOffer
      lastAnswer := "answer-sdp"
      pendingRemoteDescription :=
        some { sdpType := .offer, sdp := "offer-sdp", parsed := none } }

/-- The answer installed in the C1 witness. -/
def sdC1ex : SessionDescription :=
  { sdpType := .answer, sdp := "answer-sdp", parsed := none }

/-- Witness for C1: a concrete setLocal(answer) from have-remote-offer
succeeds and the theorem's conclusions evaluate on it. -/
theorem setDescription_answer_promotes_witness :
    ((setDescription pcC1ex sdC1ex .opSetLocal).2).signalingState = .stable ∧
    ((setDescription pcC1ex sdC1ex .opSetLocal).2).pendingLocalDescription = none ∧
    ((setDescription pcC1ex sdC1ex .opSetLocal).2).pendingRemoteDescription = none ∧
    ((setDescription pcC1ex sdC1ex .opSetLocal).2).currentLocalDescription =
      some sdC1ex ∧
    ((setDescription pcC1ex sdC1ex .opSetLocal).2).currentRemoteDescription =
      pcC1ex.pendingRemoteDescription := by
  have h := setDescription_answer_promotes pcC1ex
    (setDescription pcC1ex sdC1ex .opSetLocal).2 sdC1ex .opSetLocal rfl (by decide)
  obtain ⟨h1, h2, h3, h4, h5⟩ := h
  obtain ⟨h6, h7, h8⟩ := h4 rfl
  exact ⟨h1, h2, h3, h6, h7⟩

/-- C9: Close is idempotent: whatever the outcome of a first Close (and
whatever errors the external transports report), a further Close returns
nil and leaves the state untouched, performing no transport shutdown; in
particular two successive Close calls both return nil when the first
succeeds. -/
theorem close_idempotent (pc : PCState) (ext ext2 : CloseExternal) :
    Close (Close pc ext).2 ext2 = (none, (Close pc ext).2) := by
  by_cases hcl : pc.isClosed
  · simp [Close, hcl]
  · simp [Close, hcl]

/-- C2: on a non-closed connection, SetLocalDescription of a non-empty,
parseable description fails with the InvalidModificationError mismatch
message when the text differs from the stored lastOffer (offers) or
lastAnswer (answers and pranswers); when the texts are byte-equal the
mismatch check passes (whatever else happens, no mismatch error is
returned). -/
theorem setLocalDescription_sdp_mismatch
    (parseSDP : String → Option ParsedSDP) (ext : GathererExternal)
    (pc : PCState) (desc : SessionDescription)
    (hopen : pc.isClosed = false)
    (hne : desc.sdp ≠ "")
    (hparse : (parseSDP desc.sdp).isSome) :
    (desc.sdpType = .offer → desc.sdp ≠ pc.lastOffer →
      (SetLocalDescription parseSDP ext pc desc).1 =
        some (.invalidModificationMsg "new sdp does not match previous offer")) ∧
    ((desc.sdpType = .answer ∨ desc.sdpType = .pranswer) →
      desc.sdp ≠ pc.lastAnswer →
      (SetLocalDescription parseSDP ext pc desc).1 =
        some (.invalidModificationMsg "new sdp does not match previous answer")) ∧
    (desc.sdpType = .offer → desc.sdp = pc.lastOffer →
      (SetLocalDescription parseSDP ext pc desc).1 ≠
        some (.invalidModificationMsg "new sdp does not match previous offer") ∧
      (SetLocalDescription parseSDP ext pc desc).1 ≠
        some (.invalidModificationMsg "new sdp does not match previous answer")) ∧
    ((desc.sdpType = .answer ∨ desc.sdpType = .pranswer) →
      desc.sdp = pc.lastAnswer →
      (SetLocalDescription parseSDP ext pc desc).1 ≠
        some (.invalidModificationMsg "new sdp does not match previous offer") ∧
      (SetLocalDescription parseSDP ext pc desc).1 ≠
        some (.invalidModificationMsg "new sdp does not match previous answer")) := by
  obtain ⟨st, ssdp, spar⟩ := desc
  simp only at hne hparse ⊢
  rcases hp : parseSDP ssdp with _ | tree
  · rw [hp] at hparse; simp at hparse
  · unfold SetLocalDescription
    simp only [hopen, Bool.false_eq_true, if_false, if_neg hne, hp]
    unfold setDescription
    simp only [hopen, Bool.false_eq_true, if_false]
    refine ⟨?_, ?_, ?_, ?_⟩
    · rintro rfl hmm
      simp [if_pos hmm]
    · rintro (rfl | rfl) hmm <;> simp [if_pos hmm]
    · rintro rfl hmm
      simp only [hmm, ne_eq, not_true_eq_false, if_false, ite_not]
      simp only [checkNextSignalingState]
      split_ifs <;> simp_all <;> split_ifs <;> simp_all
    · rintro (rfl | rfl) hmm <;>
        simp only [hmm, ne_eq, not_true_eq_false, if_false, ite_not] <;>
        simp only [checkNextSignalingState] <;>
        (split_ifs <;> simp_all <;> split_ifs <;> simp_all)

/-- Witness for C2: on a fresh connection whose lastOffer is X, setting a
local offer with different text Y fails with the mismatch error. -/
theorem setLocalDescription_sdp_mismatch_witness :
    (SetLocalDescription (fun _ => some { attributes := [], mediaDescriptions := [] })
      { agentIsTrickle := true, signalOk := true, gatherOk := true }
      { initialPCState with lastOffer := "X" }
      { sdpType := .offer, sdp := "Y", parsed := none }).1 =
      some (.invalidModificationMsg "new sdp does not match previous offer") :=
  ((setLocalDescription_sdp_mismatch
      (fun _ => some { attributes := [], mediaDescriptions := [] })
      { agentIsTrickle := true, signalOk := true, gatherOk := true }
      { initialPCState with lastOffer := "X" }
      { sdpType := .offer, sdp := "Y", parsed := none }
      rfl (by decide) (by rfl)).1) rfl (by decide)

/-- The fresh inactive transceiver satisfyTypeAndDirection falls back to. -/
def freshInactiveTransceiver (k : RTPCodecType) : RTPTransceiver :=
  { sender := none
    receiver := none
    direction := .inactive
    stopped := false
    kind := k }

/-- Specification-side preferred direction order, written out from the
spec's words: remote sendrecv and sendonly prefer [recvonly, sendrecv];
remote recvonly prefers [sendonly, sendrecv]; other remote directions have
no candidates. -/
def specPreferredDirections (remoteDirection : RTPTransceiverDirection) :
    List RTPTransceiverDirection :=
  match remoteDirection with
  | .sendrecv => [.recvonly, .sendrecv]
  | .sendonly => [.recvonly, .sendrecv]
  | .recvonly => [.sendonly, .sendrecv]
  | _ => []

/-- Specification-side first index search in list order. -/
def specFindFirst (p : RTPTransceiver → Bool) :
    List RTPTransceiver → Option Nat
  | [] => none
  | t :: rest => if p t then some 0 else (specFindFirst p rest).map (· + 1)

/-- Specification-side satisfy, written out from the spec's words: walk the
preferred directions in order, within each direction walk the transceivers
in list order, return the first transceiver matching kind and direction
with the list with that element removed; if none matches, return a fresh
inactive transceiver of the requested kind and the unchanged list. -/
def specSatisfy (remoteKind : RTPCodecType)
    (remoteDirection : RTPTransceiverDirection)
    (lt : List RTPTransceiver) : RTPTransceiver × List RTPTransceiver :=
  match (specPreferredDirections remoteDirection).findSome?
      (fun pd => specFindFirst
        (fun t => t.kind == remoteKind && t.direction == pd) lt) with
  | some i => (lt.getD i (freshInactiveTransceiver remoteKind), lt.eraseIdx i)
  | none => (freshInactiveTransceiver remoteKind, lt)

lemma scanTransceivers_eq_spec (remoteKind : RTPCodecType)
    (pd : RTPTransceiverDirection) (lt : List RTPTransceiver) :
    scanTransceivers remoteKind pd lt =
      (specFindFirst (fun t => t.kind == remoteKind && t.direction == pd) lt).map
        (fun i => (lt.getD i (freshInactiveTransceiver remoteKind),
          lt.eraseIdx i)) := by
  induction lt with
  | nil => simp [scanTransceivers, specFindFirst]
  | cons hd tl ih =>
      rw [scanTransceivers, specFindFirst]
      by_cases hc : hd.kind = remoteKind ∧ pd = hd.direction
      · have hb : (hd.kind == remoteKind && hd.direction == pd) = true := by
          simp [hc.1, hc.2.symm]
        rw [if_pos hc, if_pos hb]
        simp
      · have hb : ¬ ((hd.kind == remoteKind && hd.direction == pd) = true) := by
          intro hcon
          simp only [Bool.and_eq_true, beq_iff_eq] at hcon
          exact hc ⟨hcon.1, hcon.2.symm⟩
        rw [if_neg hc, if_neg hb, ih]
        rcases specFindFirst (fun t => t.kind == remoteKind && t.direction == pd) tl
          with _ | i
        · simp
        · simp [List.getD_cons_succ, List.eraseIdx_cons_succ]

lemma satisfyGo_eq_spec (remoteKind : RTPCodecType)
    (lt : List RTPTransceiver) (pds : List RTPTransceiverDirection) :
    satisfyGo remoteKind lt pds =
      (pds.findSome? (fun pd => specFindFirst
          (fun t => t.kind == remoteKind && t.direction == pd) lt)).map
        (fun i => (lt.getD i (freshInactiveTransceiver remoteKind),
          lt.eraseIdx i)) := by
  induction pds with
  | nil => simp [satisfyGo]
  | cons pd rest ih =>
      rw [satisfyGo, List.findSome?_cons, scanTransceivers_eq_spec]
      rcases specFindFirst (fun t => t.kind == remoteKind && t.direction == pd) lt
        with _ | i
      · simpa using ih
      · simp

/-- C3: satisfyTypeAndDirection agrees with the specification-side satisfy
on every remote kind, remote direction and transceiver list: directions
are scanned in the preferred order (remote sendrecv or sendonly prefer
recvonly then sendrecv; remote recvonly prefers sendonly then sendrecv),
within a direction transceivers are scanned in list order, the first match
is returned with the list with that element removed, and with no match a
fresh inactive transceiver of the requested kind is returned (not added to
any registry) with the list unchanged. -/
theorem satisfyTypeAndDirection_matches_spec (remoteKind : RTPCodecType)
    (remoteDirection : RTPTransceiverDirection)
    (lt : List RTPTransceiver) :
    satisfyTypeAndDirection remoteKind remoteDirection lt =
      specSatisfy remoteKind remoteDirection lt := by
  unfold satisfyTypeAndDirection specSatisfy
  have hdir : getPreferredDirections remoteDirection =
      specPreferredDirections remoteDirection := by
    cases remoteDirection <;> rfl
  rw [hdir, satisfyGo_eq_spec]
  rcases (specPreferredDirections remoteDirection).findSome?
      (fun pd => specFindFirst
        (fun t => t.kind == remoteKind && t.direction == pd) lt)
    with _ | i
  · simp [freshInactiveTransceiver]
  · simp

lemma setDescription_no_plain_error (pc : PCState) (sd : SessionDescription)
    (op : StateChangeOp) (msg : String) :
    (setDescription pc sd op).1 ≠ some (.plain msg) := by
  obtain ⟨st, ssdp, spar⟩ := sd
  unfold setDescription
  by_cases hcl : pc.isClosed
  · simp [hcl]
  · simp only [hcl, Bool.false_eq_true, if_false]
    cases op <;> cases st <;>
      simp only [checkNextSignalingState, fireSignalingStateChange] <;>
      (try split_ifs) <;> simp_all

lemma setDescription_setRemote_success_fields (pc pcA : PCState)
    (sd : SessionDescription)
    (h : setDescription pc sd .opSetRemote = (none, pcA)) :
    pcA.isClosed = pc.isClosed ∧
    pcA.currentRemoteDescription =
      (if sd.sdpType = .answer then some sd else pc.currentRemoteDescription) ∧
    (sd.sdpType = .offer → pcA.signalingState = .haveRemoteOffer) := by
  obtain ⟨st, ssdp, spar⟩ := sd
  unfold setDescription at h
  by_cases hcl : pc.isClosed
  · simp [hcl] at h
  · simp only [hcl, Bool.false_eq_true, if_false] at h
    cases st <;>
      simp only [checkNextSignalingState, signalingTransitionAllowed,
        fireSignalingStateChange] at h <;>
      (try split_ifs at h) <;>
      simp_all [Prod.ext_iff] <;>
      (try (subst h; simp_all))

lemma setRemoteDescription_success_fields
    (parseSDP : String → Option ParsedSDP) (ext : RemoteExternal)
    (pc pc1 : PCState) (d : SessionDescription)
    (h : SetRemoteDescription parseSDP ext pc d = (none, pc1)) :
    pc1.isClosed = false ∧
    pc.currentRemoteDescription = none ∧
    (pc1.currentRemoteDescription.isSome ↔ d.sdpType = .answer) ∧
    (d.sdpType = .offer → pc1.signalingState = .haveRemoteOffer) := by
  unfold SetRemoteDescription at h
  by_cases hcur : pc.currentRemoteDescription.isSome
  · simp [hcur] at h
  · have hcurn : pc.currentRemoteDescription = none :=
      Option.not_isSome_iff_eq_none.mp hcur
    simp only [hcur, Bool.false_eq_true, if_false] at h
    by_cases hcl : pc.isClosed
    · simp [hcl] at h
    · simp only [hcl, Bool.false_eq_true, if_false] at h
      rcases hp : parseSDP d.sdp with _ | tree
      · simp only [hp] at h; simp at h
      · simp only [hp] at h
        rcases hsd : setDescription pc { d with parsed := some tree } .opSetRemote
          with ⟨_ | e, pcA⟩
        · simp only [hsd] at h
          obtain ⟨hA1, hA2, hA3⟩ :=
            setDescription_setRemote_success_fields pc pcA _ hsd
          simp only at hA2 hA3
          rcases hfp : collectFingerprint tree with _ | fp <;>
            simp only [hfp] at h <;>
            (try split_ifs at h) <;>
            simp_all [Prod.ext_iff] <;>
            (try subst h) <;>
            simp_all [hcurn, Option.isSome] <;>
            (try (rcases hda : d.sdpType <;> simp_all))
        · simp only [hsd] at h
          simp at h

/-- Counterexample input for C6: an SDP parse with a session level
fingerprint, a non-trickle gatherer and two offers. -/
def parseC6 : String → Option ParsedSDP :=
  fun _ => some
    { attributes := [{ key := "fingerprint", value := "sha-256 AA" }]
      mediaDescriptions := [] }

/-- Counterexample externals for C6. -/
def extC6 : RemoteExternal :=
  { candidateOk := true, agentIsTrickle := false, gatherOk := true }

/-- First offer installed in the C6 counterexample. -/
def descC6offer : SessionDescription :=
  { sdpType := .offer, sdp := "o1", parsed := none }

/-- Second offer of the C6 counterexample. -/
def descC6offer2 : SessionDescription :=
  { sdpType := .offer, sdp := "o2", parsed := none }

/-- The state after the first successful SetRemoteDescription of C6. -/
def pcC6mid : PCState :=
  (SetRemoteDescription parseC6 extC6 initialPCState descC6offer).2

/-- Counterexample for C6: after a first SetRemoteDescription(offer) that
succeeds, a second SetRemoteDescription call does fail, but with the
signaling-transition InvalidModificationError, not the quoted
already-defined error, because the offer lives in
pendingRemoteDescription and the already-defined check only looks at
currentRemoteDescription. -/
theorem setRemoteDescription_second_call_counterexample :
    (SetRemoteDescription parseC6 extC6 initialPCState descC6offer).1 = none ∧
    (SetRemoteDescription parseC6 extC6 pcC6mid descC6offer2).1 =
      some (.invalidModificationCode .signalingTransitionInvalid) ∧
    (RTCErr.invalidModificationCode .signalingTransitionInvalid ≠
      RTCErr.plain
        "remoteDescription is already defined, SetRemoteDescription can only be called once") := by
  refine ⟨by decide, by decide, by decide⟩

/-- C6 (amended): after a successful SetRemoteDescription, the
currentRemoteDescription is non-null exactly when the installed
description was an answer; a further SetRemoteDescription call returns the
quoted already-defined error exactly in that case, and after a first call
that installed an offer a second offer call instead fails with the
signaling-transition InvalidModificationError. -/
theorem setRemoteDescription_already_defined_amended
    (parse1 parse2 : String → Option ParsedSDP) (ext ext2 : RemoteExternal)
    (pc pc1 : PCState) (d d2 : SessionDescription)
    (h1 : SetRemoteDescription parse1 ext pc d = (none, pc1)) :
    (pc1.currentRemoteDescription.isSome ↔ d.sdpType = .answer) ∧
    ((SetRemoteDescription parse2 ext2 pc1 d2).1 =
        some (.plain
          "remoteDescription is already defined, SetRemoteDescription can only be called once") ↔
      pc1.currentRemoteDescription.isSome) ∧
    (d.sdpType = .offer → d2.sdpType = .offer → (parse2 d2.sdp).isSome →
      (SetRemoteDescription parse2 ext2 pc1 d2).1 =
        some (.invalidModificationCode .signalingTransitionInvalid)) := by
  obtain ⟨hcl1, hcur0, hiff, hoff⟩ :=
    setRemoteDescription_success_fields parse1 ext pc pc1 d h1
  refine ⟨hiff, ?_, ?_⟩
  · constructor
    · intro hres
      by_contra hno
      have hcurn : pc1.currentRemoteDescription = none :=
        Option.not_isSome_iff_eq_none.mp hno
      unfold SetRemoteDescription at hres
      simp only [hcurn, Option.isSome_none, Bool.false_eq_true, if_false,
        hcl1] at hres
      rcases hp : parse2 d2.sdp with _ | tree2
      · simp only [hp] at hres; simp at hres
      · simp only [hp] at hres
        rcases hsd : setDescription pc1 { d2 with parsed := some tree2 }
            .opSetRemote with ⟨_ | e, pcB⟩
        · simp only [hsd] at hres
          rcases hfp : collectFingerprint tree2 with _ | fp <;>
            simp only [hfp] at hres <;>
            (try split_ifs at hres) <;>
            simp_all
        · simp only [hsd] at hres
          have := setDescription_no_plain_error pc1
            { d2 with parsed := some tree2 } .opSetRemote
            "remoteDescription is already defined, SetRemoteDescription can only be called once"
          rw [hsd] at this
          simp only at this
          exact this (by rw [← hres])
    · intro hsome
      unfold SetRemoteDescription
      simp [hsome]
  · intro hd hd2 hp2
    have hcurn : pc1.currentRemoteDescription = none := by
      rcases hx : pc1.currentRemoteDescription with _ | v
      · rfl
      · exfalso
        have : d.sdpType = .answer := hiff.mp (by simp [hx])
        rw [hd] at this
        exact SDPType.noConfusion this
    have hsig := hoff hd
    unfold SetRemoteDescription
    simp only [hcurn, Option.isSome_none, Bool.false_eq_true, if_false, hcl1]
    rcases hp : parse2 d2.sdp with _ | tree2
    · rw [hp] at hp2; simp at hp2
    · obtain ⟨st2, ssdp2, spar2⟩ := d2
      simp only at hd2
      subst hd2
      unfold setDescription
      simp only [hcl1, Bool.false_eq_true, if_false, hsig,
        checkNextSignalingState, signalingTransitionAllowed]
      simp

/-- Witness for the amended C6 theorem: the concrete offer-then-offer run
of the counterexample, driven through the theorem. -/
theorem setRemoteDescription_already_defined_amended_witness :
    (SetRemoteDescription parseC6 extC6 pcC6mid descC6offer2).1 =
      some (.invalidModificationCode .signalingTransitionInvalid) :=
  (setRemoteDescription_already_defined_amended parseC6 parseC6 extC6 extC6
    initialPCState pcC6mid descC6offer descC6offer2 (by decide)).2.2
    rfl rfl (by decide)

lemma genIDLoop_ok_spec (dcs : List Nat) (bound : Nat) :
    ∀ id, ∀ j, genIDLoop dcs bound id = .ok j →
      id ≤ j ∧ j < bound ∧ j % 2 = id % 2 ∧ j ∉ dcs ∧
        ∀ k, id ≤ k → k < j → k % 2 = id % 2 → k ∈ dcs := by
  intro id
  induction id using genIDLoop.induct dcs bound with
  | case1 id hlt hmem ih =>
      intro j h
      rw [genIDLoop, if_pos hlt, if_pos hmem] at h
      obtain ⟨h1, h2, h3, h4, h5⟩ := ih j h
      refine ⟨by omega, h2, by omega, h4, ?_⟩
      intro k hk1 hk2 hk3
      rcases Nat.lt_or_ge k (id + 2) with hc | hc
      · have hor : k = id ∨ k = id + 1 := by omega
        rcases hor with rfl | rfl
        · exact List.mem_of_elem_eq_true hmem
        · omega
      · exact h5 k hc hk2 (by omega)
  | case2 id hlt hmem =>
      intro j h
      rw [genIDLoop, if_pos hlt, if_neg hmem] at h
      cases h
      exact ⟨le_refl _, hlt, rfl, by simpa using hmem, by omega⟩
  | case3 id hlt =>
      intro j h
      rw [genIDLoop, if_neg hlt] at h
      simp at h

lemma genIDLoop_error_iff (dcs : List Nat) (bound : Nat) : ∀ id,
    genIDLoop dcs bound id = .error (.operationErrorCode .maxDataChannelID) ↔
      ∀ k, id ≤ k → k < bound → k % 2 = id % 2 → k ∈ dcs := by
  intro id
  induction id using genIDLoop.induct dcs bound with
  | case1 id hlt hmem ih =>
      rw [genIDLoop, if_pos hlt, if_pos hmem]
      constructor
      · intro h k hk1 hk2 hk3
        rcases Nat.lt_or_ge k (id + 2) with hc | hc
        · have hor : k = id ∨ k = id + 1 := by omega
          rcases hor with rfl | rfl
          · exact List.mem_of_elem_eq_true hmem
          · omega
        · exact (ih.mp h) k hc hk2 (by omega)
      · intro h
        exact ih.mpr (fun k hk1 hk2 hk3 => h k (by omega) hk2 (by omega))
  | case2 id hlt hmem =>
      rw [genIDLoop, if_pos hlt, if_neg hmem]
      constructor
      · intro h; simp at h
      · intro h
        exact absurd (List.elem_eq_true_of_mem (h id le_rfl hlt rfl)) hmem
  | case3 id hlt =>
      rw [genIDLoop, if_neg hlt]
      simp only [true_iff]
      intro k hk1 hk2 hk3
      omega

/-- The effective id bound of generateDataChannelID on this state: the
attached transport's MaxChannels() (or the fixed bound), minus one in
uint16 arithmetic. -/
def dataChannelIDBound (pc : PCState) : Nat :=
  if (if pc.sctpTransportAttached then pc.sctpMaxChannels else sctpMaxChannels) = 0
  then 65535
  else (if pc.sctpTransportAttached then pc.sctpMaxChannels else sctpMaxChannels) - 1

lemma createDataChannel_id_cases (pc : PCState) (label : String)
    (options : Option DataChannelInit)
    (hopen : pc.isClosed = false)
    (hnoid : options = none ∨ (∃ o, options = some o ∧ o.id = none))
    (hboth : ∀ o, options = some o →
      ¬ (o.maxPacketLifeTime.isSome ∧ o.maxRetransmits.isSome)) :
    CreateDataChannel pc label options =
      match genIDLoop pc.dataChannels (dataChannelIDBound pc) 0 with
      | .error e => .error e
      | .ok id => .ok (id,
          { pc with
              dataChannels := insertChannelID pc.dataChannels id
              dataChannelsRequested := pc.dataChannelsRequested + 1 }) := by
  unfold CreateDataChannel
  simp only [hopen, Bool.false_eq_true, if_false]
  have hgen : generateDataChannelID true
      (if pc.sctpTransportAttached then pc.sctpMaxChannels else sctpMaxChannels)
      pc.dataChannels = genIDLoop pc.dataChannels (dataChannelIDBound pc) 0 := by
    simp [generateDataChannelID, dataChannelIDBound]
  rcases hnoid with rfl | ⟨o, rfl, hoid⟩
  · rw [hgen]
    rcases hid : genIDLoop pc.dataChannels (dataChannelIDBound pc) 0
      with e | idv <;> simp [hid]
  · have hb := hboth o rfl
    simp only [hoid]
    rw [hgen]
    rcases hid : genIDLoop pc.dataChannels (dataChannelIDBound pc) 0
      with e | idv <;> simp [hid, hb]

/-- Counterexample state for C7: SCTP attached with MaxChannels() = 5 and
even ids 0 and 2 already taken. -/
def pcC7ex : PCState :=
  { initialPCState with
      sctpTransportAttached := true
      sctpMaxChannels := 5
      dataChannels := [0, 2] }

/-- Counterexample for C7: with channel limit 5 and even ids 0 and 2 taken,
CreateDataChannel without an id fails with OperationError MaxDataChannelID
even though 4 is an even id below the limit (indeed equal to the claim's
maximum usable id, limit minus 1) and untaken: the loop only admits even
ids strictly below limit minus 1. -/
theorem createDataChannel_boundary_counterexample :
    CreateDataChannel pcC7ex "chat" none =
      .error (.operationErrorCode .maxDataChannelID) ∧
    4 % 2 = 0 ∧ 4 < 5 ∧ (4 : Nat) ∉ pcC7ex.dataChannels := by
  refine ⟨?_, by decide, by decide, by decide⟩
  rw [createDataChannel_id_cases pcC7ex "chat" none rfl (Or.inl rfl)
    (fun o ho => by cases ho)]
  have hb : dataChannelIDBound pcC7ex = 4 := rfl
  rw [hb]
  have hloop : genIDLoop pcC7ex.dataChannels 4 0 =
      .error (.operationErrorCode .maxDataChannelID) := by
    simp [genIDLoop, pcC7ex, initialPCState]
  rw [hloop]

/-- C7 (amended): on the offering side with no id in the options, the
allocated stream id is the smallest even id not already in the data
channel map, hence even, fresh, and recorded in the successor map (so
initiator-chosen ids are even and pairwise distinct); the allocation fails
with OperationError MaxDataChannelID exactly when every even id strictly
below the limit minus 1 is already taken, the limit being the attached
transport's MaxChannels() or the fixed bound, so the largest admissible
even id lies strictly below limit minus 1 rather than at the claim's limit
minus 1. -/
theorem createDataChannel_id_allocation_amended (pc : PCState)
    (label : String) (options : Option DataChannelInit)
    (hopen : pc.isClosed = false)
    (hnoid : options = none ∨ (∃ o, options = some o ∧ o.id = none))
    (hboth : ∀ o, options = some o →
      ¬ (o.maxPacketLifeTime.isSome ∧ o.maxRetransmits.isSome)) :
    (∀ id pc1, CreateDataChannel pc label options = .ok (id, pc1) →
      id % 2 = 0 ∧ id ∉ pc.dataChannels ∧
      (∀ j, j % 2 = 0 → j ∉ pc.dataChannels → id ≤ j) ∧
      id ∈ pc1.dataChannels) ∧
    (CreateDataChannel pc label options =
        .error (.operationErrorCode .maxDataChannelID) ↔
      ∀ k, k % 2 = 0 → k < dataChannelIDBound pc → k ∈ pc.dataChannels) := by
  rw [createDataChannel_id_cases pc label options hopen hnoid hboth]
  rcases hid : genIDLoop pc.dataChannels (dataChannelIDBound pc) 0 with e | idv
  · have herr := (genIDLoop_error_iff pc.dataChannels (dataChannelIDBound pc) 0)
    constructor
    · intro id pc1 h
      simp at h
    · simp only []
      constructor
      · intro hh
        injection hh with he
        subst he
        exact fun k hk1 hk2 => (herr.mp hid) k (by omega) hk2 (by omega)
      · intro hh
        have hx := herr.mpr (fun k hk1 hk2 hk3 => hh k (by omega) hk2)
        rw [hid] at hx
        injection hx with he
        rw [he]
  · obtain ⟨h1, h2, h3, h4, h5⟩ :=
      genIDLoop_ok_spec pc.dataChannels (dataChannelIDBound pc) 0 idv hid
    constructor
    · intro id pc1 h
      simp only [] at h
      injection h with hpair
      have hidv : idv = id := congrArg Prod.fst hpair
      have hpcv := congrArg Prod.snd hpair
      simp only at hidv hpcv
      subst hidv
      subst hpcv
      refine ⟨by omega, h4, ?_, ?_⟩
      · intro j hj1 hj2
        by_contra hlt
        exact hj2 (h5 j (by omega) (by omega) (by omega))
      · simp only [insertChannelID]
        split_ifs with hmem
        · exact List.mem_of_elem_eq_true hmem
        · exact List.mem_cons_self _ _
    · constructor
      · intro hh
        simp at hh
      · intro hh
        have hx := (genIDLoop_error_iff pc.dataChannels
          (dataChannelIDBound pc) 0).mpr
          (fun k hk1 hk2 hk3 => hh k (by omega) hk2)
        rw [hid] at hx
        simp at hx

/-- Witness state for the amended C7 theorem: limit 6, id 0 taken. -/
def pcC7w : PCState :=
  { initialPCState with
      sctpTransportAttached := true
      sctpMaxChannels := 6
      dataChannels := [0] }

/-- Witness for the amended C7 theorem: with limit 6 and id 0 taken, the
allocation through the theorem yields the smallest free even id, 2, which
is recorded in the successor map. -/
theorem createDataChannel_id_allocation_amended_witness :
    2 % 2 = 0 ∧ (2 : Nat) ∉ pcC7w.dataChannels ∧
    (∀ j, j % 2 = 0 → j ∉ pcC7w.dataChannels → 2 ≤ j) ∧
    2 ∈ ({ pcC7w with
        dataChannels := insertChannelID pcC7w.dataChannels 2
        dataChannelsRequested := pcC7w.dataChannelsRequested + 1 } :
      PCState).dataChannels := by
  have hcall : CreateDataChannel pcC7w "chat" none =
      .ok (2, { pcC7w with
        dataChannels := insertChannelID pcC7w.dataChannels 2
        dataChannelsRequested := pcC7w.dataChannelsRequested + 1 }) := by
    rw [createDataChannel_id_cases pcC7w "chat" none rfl (Or.inl rfl)
      (fun o ho => by cases ho)]
    have hb : dataChannelIDBound pcC7w = 5 := rfl
    rw [hb]
    have hloop : genIDLoop pcC7w.dataChannels 5 0 = .ok 2 := by
      simp [genIDLoop, pcC7w, initialPCState]
    rw [hloop]
  exact (createDataChannel_id_allocation_amended pcC7w "chat" none rfl
    (Or.inl rfl) (fun o ho => by cases ho)).1 2 _ hcall

/-- A freshly constructed then closed connection, with no remote
description. -/
def pcC8a : PCState := { initialPCState with isClosed := true }

/-- A closed connection that still holds a pending remote offer. -/
def pcC8b : PCState :=
  { initialPCState with
      isClosed := true
      pendingRemoteDescription :=
        some { sdpType := .offer, sdp := "o", parsed := none } }

/-- Counterexample for C8: on a closed connection with no remote
description, AddICECandidate fails with InvalidStateError
NoRemoteDescription (not ConnectionClosed: it never checks isClosed), and
WriteRTCP whose SRTCP session is unavailable returns nil rather than any
error. -/
theorem api_after_close_counterexample :
    pcC8a.isClosed = true ∧
    AddICECandidate { parseOk := true, addOk := true } pcC8a "candidate:foo" =
      some (.invalidState .noRemoteDescription) ∧
    some (RTCErr.invalidState .noRemoteDescription) ≠
      some (RTCErr.invalidState .connectionClosed) ∧
    WriteRTCP pcC8a
      { marshalOk := true, srtcpSessionOk := false, openWriteStreamOk := true,
        writeOk := true } = none := by
  refine ⟨by decide, by decide, by decide, by decide⟩

/-- C8 (amended): after Close, CreateOffer (without options, no identity
provider), SetLocalDescription, SetConfiguration, AddTrack and
CreateDataChannel fail with InvalidStateError ConnectionClosed;
CreateAnswer does so only when a remote description is installed (its
missing-remote check runs first), SetRemoteDescription only when
currentRemoteDescription is null (its already-defined check runs first);
AddICECandidate performs no closed check and fails with
NoRemoteDescription when no remote description exists; and WriteRTCP
reads no connection state at all, so its outcome is independent of the
state. -/
theorem api_calls_after_close_amended
    (codecsByKind : RTPCodecType → List Codec) (ufrag pwd : String)
    (parseSDP : String → Option ParsedSDP) (gext : GathererExternal)
    (rext : RemoteExternal) (cext : CandidateExternal) (wext : RTCPExternal)
    (serverValidate : Nat → Option RTCErr)
    (pc : PCState) (d : SessionDescription) (cfg : Configuration)
    (track : Track) (label : String) (options : Option DataChannelInit)
    (cand : String)
    (hcl : pc.isClosed = true)
    (hidp : pc.idpLoginURL = none) :
    CreateOffer codecsByKind ufrag pwd pc false =
      .error (.invalidState .connectionClosed) ∧
    ((RemoteDescription pc).isSome →
      CreateAnswer codecsByKind ufrag pwd pc false =
        .error (.invalidState .connectionClosed)) ∧
    (SetLocalDescription parseSDP gext pc d).1 =
      some (.invalidState .connectionClosed) ∧
    (pc.currentRemoteDescription = none →
      (SetRemoteDescription parseSDP rext pc d).1 =
        some (.invalidState .connectionClosed)) ∧
    (SetConfiguration serverValidate pc cfg).1 =
      some (.invalidState .connectionClosed) ∧
    (AddTrack pc track).1 = some (.invalidState .connectionClosed) ∧
    CreateDataChannel pc label options =
      .error (.invalidState .connectionClosed) ∧
    ((RemoteDescription pc).isNone →
      AddICECandidate cext pc cand =
        some (.invalidState .noRemoteDescription)) ∧
    (∀ pc2 : PCState, WriteRTCP pc wext = WriteRTCP pc2 wext) := by
  refine ⟨?_, ?_, ?_, ?_, ?_, ?_, ?_, ?_, ?_⟩
  · unfold CreateOffer
    simp [hcl, hidp]
  · intro hrem
    unfold CreateAnswer
    have hnone : (RemoteDescription pc).isNone = false := by
      cases hx : RemoteDescription pc with
      | none => rw [hx] at hrem; simp at hrem
      | some v => simp [hx]
    simp [hcl, hidp, hnone]
  · unfold SetLocalDescription
    simp [hcl]
  · intro hcur
    unfold SetRemoteDescription
    simp [hcl, hcur]
  · unfold SetConfiguration
    simp [hcl]
  · unfold AddTrack
    simp [hcl]
  · unfold CreateDataChannel
    simp [hcl]
  · intro hrem
    unfold AddICECandidate
    simp [Option.isNone_iff_eq_none.mp hrem]
  · intro pc2
    rfl

/-- Witness for the amended C8 theorem: the concrete closed states, with
each conjunct's premise discharged on the state that satisfies it. -/
theorem api_calls_after_close_amended_witness :
    CreateOffer (fun _ => []) "u" "p" pcC8a false =
      .error (.invalidState .connectionClosed) ∧
    CreateAnswer (fun _ => []) "u" "p" pcC8b false =
      .error (.invalidState .connectionClosed) ∧
    (SetLocalDescription (fun _ => none)
      { agentIsTrickle := true, signalOk := true, gatherOk := true } pcC8a
      { sdpType := .offer, sdp := "x", parsed := none }).1 =
      some (.invalidState .connectionClosed) ∧
    (SetRemoteDescription (fun _ => none)
      { candidateOk := true, agentIsTrickle := true, gatherOk := true } pcC8a
      { sdpType := .offer, sdp := "x", parsed := none }).1 =
      some (.invalidState .connectionClosed) ∧
    (SetConfiguration (fun _ => none) pcC8a initialPCState.configuration).1 =
      some (.invalidState .connectionClosed) ∧
    (AddTrack pcC8a { kind := .audio }).1 =
      some (.invalidState .connectionClosed) ∧
    CreateDataChannel pcC8a "chat" none =
      .error (.invalidState .connectionClosed) ∧
    AddICECandidate { parseOk := true, addOk := true } pcC8a "candidate:foo" =
      some (.invalidState .noRemoteDescription) := by
  have ha := api_calls_after_close_amended (fun _ => []) "u" "p"
    (fun _ => none)
    { agentIsTrickle := true, signalOk := true, gatherOk := true }
    { candidateOk := true, agentIsTrickle := true, gatherOk := true }
    { parseOk := true, addOk := true }
    { marshalOk := true, srtcpSessionOk := true, openWriteStreamOk := true,
      writeOk := true }
    (fun _ => none) pcC8a
    { sdpType := .offer, sdp := "x", parsed := none }
    initialPCState.configuration { kind := .audio } "chat" none
    "candidate:foo" rfl rfl
  have hb := api_calls_after_close_amended (fun _ => []) "u" "p"
    (fun _ => none)
    { agentIsTrickle := true, signalOk := true, gatherOk := true }
    { candidateOk := true, agentIsTrickle := true, gatherOk := true }
    { parseOk := true, addOk := true }
    { marshalOk := true, srtcpSessionOk := true, openWriteStreamOk := true,
      writeOk := true }
    (fun _ => none) pcC8b
    { sdpType := .offer, sdp := "x", parsed := none }
    initialPCState.configuration { kind := .audio } "chat" none
    "candidate:foo" rfl rfl
  exact ⟨ha.1, hb.2.1 (by decide), ha.2.2.1, ha.2.2.2.1 (by decide),
    ha.2.2.2.2.1, ha.2.2.2.2.2.1, ha.2.2.2.2.2.2.1,
    ha.2.2.2.2.2.2.2.1 (by decide)⟩

/-- Default media description used for out-of-range list reads in
statements. -/
def emptyMedia : MediaDescription :=
  { mediaName := { media := "", port := 0, protos := [], formats := [] }
    attributes := [] }

lemma addTransceiverSDP_cons (codecsByKind : RTPCodecType → List Codec)
    (midValue ufrag pwd role : String) (t : RTPTransceiver)
    (rest : List RTPTransceiver) :
    ∃ m, addTransceiverSDP codecsByKind midValue ufrag pwd role (t :: rest) =
        .ok m ∧
      m.mediaName.media = t.kind.goString ∧
      getMidValue m =
        (if (codecsByKind t.kind).isEmpty then "" else midValue) := by
  rcases hm : addTransceiverSDP codecsByKind midValue ufrag pwd role (t :: rest)
    with e | m
  · exfalso
    simp only [addTransceiverSDP] at hm
    split_ifs at hm <;> simp at hm
  · refine ⟨m, rfl, ?_⟩
    simp only [addTransceiverSDP] at hm
    split_ifs at hm with hc
    · injection hm with hm1
      subst hm1
      exact ⟨rfl, by rw [if_pos hc]; simp [getMidValue]⟩
    · injection hm with hm1
      subst hm1
      exact ⟨rfl, by rw [if_neg hc]; simp [getMidValue]⟩

lemma getMidValue_dataMediaSection (midValue ufrag pwd role : String) :
    getMidValue (addDataMediaSection midValue ufrag pwd role) = midValue := by
  simp [getMidValue, addDataMediaSection]

lemma offerSectionsUnified_props (codecsByKind : RTPCodecType → List Codec)
    (ufrag pwd : String) : ∀ (ts : List RTPTransceiver) (i : Nat),
    ∃ secs bun,
      offerSectionsUnified codecsByKind ufrag pwd ts i = .ok (secs, bun) ∧
      secs.length = ts.length ∧
      bun = (List.range ts.length).map (fun k => toString (i + k)) ∧
      ∀ j, j < ts.length →
        (secs.getD j emptyMedia).mediaName.media =
          ((ts.getD j (freshInactiveTransceiver .audio)).kind).goString ∧
        getMidValue (secs.getD j emptyMedia) =
          (if (codecsByKind
              (ts.getD j (freshInactiveTransceiver .audio)).kind).isEmpty
            then "" else toString (i + j)) := by
  intro ts
  induction ts with
  | nil =>
      intro i
      exact ⟨[], [], rfl, rfl, by simp, by intro j hj; simp at hj⟩
  | cons t rest ih =>
      intro i
      obtain ⟨secs', bun', hrec, hlen, hbun, hidx⟩ := ih (i + 1)
      obtain ⟨m, hm, hmedia, hmid⟩ :=
        addTransceiverSDP_cons codecsByKind (toString i) ufrag pwd "actpass" t []
      refine ⟨m :: secs', toString i :: bun', ?_, by simp [hlen], ?_, ?_⟩
      · simp only [offerSectionsUnified]
        rw [hm, hrec]
        rfl
      · rw [hbun]
        simp only [List.length_cons]
        rw [List.range_succ_eq_map]
        simp only [List.map_cons, List.map_map, Nat.add_zero]
        congr 1
        apply List.map_congr_left
        intro a _
        simp only [Function.comp_apply]
        congr 1
        omega
      · intro j hj
        cases j with
        | zero =>
            simpa [hmedia, Nat.add_zero] using hmid
        | succ j0 =>
            have hj0 : j0 < rest.length := by simpa using hj
            have := hidx j0 hj0
            simpa [Nat.add_assoc, Nat.add_comm 1 j0] using this

/-- Counterexample state for C5: a single video transceiver under Unified
Plan. -/
def pcC5ex : PCState :=
  { initialPCState with
      rtpTransceivers :=
        [{ sender := none, receiver := none, direction := .sendrecv,
           stopped := false, kind := .video }] }

/-- The offer produced in the C5 counterexample. -/
def c5out : List MediaDescription × List String :=
  ((CreateOffer (fun _ => []) "u" "p" pcC5ex false).toOption).getD ([], [])

/-- Counterexample for C5: with a media engine holding no video codecs,
the first transceiver's m-section is emitted rejected and carries no mid
attribute at all (getMidValue is empty, not the claimed "0"), while the
bundle list still reads 0 then 1. -/
theorem createOffer_mid_counterexample :
    CreateOffer (fun _ => []) "u" "p" pcC5ex false = .ok c5out ∧
    (c5out.1.getD 0 emptyMedia).mediaName.media = "video" ∧
    getMidValue (c5out.1.getD 0 emptyMedia) = "" ∧
    ("" : String) ≠ "0" ∧
    c5out.2 = ["0", "1"] := by
  refine ⟨by rfl, by rfl, by rfl, by decide, by rfl⟩

/-- C5 (amended): for a successful CreateOffer under Unified Plan
semantics, the i-th transceiver produces the i-th m-section, whose media
token is its kind and whose mid attribute is the decimal string of i
provided the media engine has codecs for that kind (with no codecs the
section is emitted rejected, without a mid attribute, though its mid still
appears in the bundle); the data section comes last with mid the decimal
transceiver count, and the bundle lists the mids 0..count in emission
order.  Under Plan-B the mids are the literal strings video, audio, data
in bundle order (video and audio present only when a transceiver of that
kind exists), each section carrying the corresponding mid attribute unless
it was emitted rejected for lack of codecs, the data section always
carrying mid data. -/
theorem createOffer_mid_assignment_amended
    (codecsByKind : RTPCodecType → List Codec) (ufrag pwd : String)
    (pc : PCState)
    (hidp : pc.idpLoginURL = none) (hcl : pc.isClosed = false) :
    (pc.configuration.sdpSemantics = .unifiedPlan →
      ∃ secs bun,
        CreateOffer codecsByKind ufrag pwd pc false = .ok (secs, bun) ∧
        secs.length = pc.rtpTransceivers.length + 1 ∧
        (∀ i, i < pc.rtpTransceivers.length →
          (secs.getD i emptyMedia).mediaName.media =
            ((pc.rtpTransceivers.getD i
              (freshInactiveTransceiver .audio)).kind).goString ∧
          getMidValue (secs.getD i emptyMedia) =
            (if (codecsByKind (pc.rtpTransceivers.getD i
                (freshInactiveTransceiver .audio)).kind).isEmpty
              then "" else toString i)) ∧
        (secs.getD pc.rtpTransceivers.length emptyMedia).mediaName.media =
          "application" ∧
        getMidValue (secs.getD pc.rtpTransceivers.length emptyMedia) =
          toString pc.rtpTransceivers.length ∧
        bun = (List.range (pc.rtpTransceivers.length + 1)).map
          (fun k => toString k)) ∧
    (pc.configuration.sdpSemantics = .planB →
      ∃ secs bun,
        CreateOffer codecsByKind ufrag pwd pc false = .ok (secs, bun) ∧
        bun = (if (pc.rtpTransceivers.filter
                (fun t => t.kind = .video)).isEmpty then [] else ["video"]) ++
              (if (pc.rtpTransceivers.filter
                (fun t => t.kind = .audio)).isEmpty then [] else ["audio"]) ++
              ["data"] ∧
        secs.length = bun.length ∧
        (∀ j, j < secs.length →
          getMidValue (secs.getD j emptyMedia) = bun.getD j "" ∨
          getMidValue (secs.getD j emptyMedia) = "") ∧
        getMidValue (secs.getD (secs.length - 1) emptyMedia) = "data") := by
  constructor
  · intro hsem
    obtain ⟨secs0, bun0, hrec, hlen, hbun, hidx⟩ :=
      offerSectionsUnified_props codecsByKind ufrag pwd pc.rtpTransceivers 0
    have hbunlen : bun0.length = pc.rtpTransceivers.length := by
      rw [hbun]; simp
    refine ⟨secs0 ++ [addDataMediaSection (toString bun0.length) ufrag pwd
      "actpass"], bun0 ++ [toString bun0.length], ?_, ?_, ?_, ?_, ?_, ?_⟩
    · unfold CreateOffer
      rw [hidp]
      simp only [hcl, Bool.false_eq_true, if_false, Option.isSome_none,
        if_false, hsem]
      rw [hrec]
      rfl
    · simp [hlen]
    · intro i hi
      have hg : (secs0 ++ [addDataMediaSection (toString bun0.length) ufrag pwd
          "actpass"]).getD i emptyMedia = secs0.getD i emptyMedia := by
        have hi0 : i < secs0.length := by omega
        rw [List.getD_eq_getElem?_getD, List.getElem?_append, if_pos hi0,
          ← List.getD_eq_getElem?_getD]
      rw [hg]
      have := hidx i hi
      simpa using this
    · have hg : (secs0 ++ [addDataMediaSection (toString bun0.length) ufrag pwd
          "actpass"]).getD pc.rtpTransceivers.length emptyMedia =
          addDataMediaSection (toString bun0.length) ufrag pwd "actpass" := by
        rw [List.getD_eq_getElem?_getD, List.getElem?_append,
          if_neg (by omega), hlen]
        simp
      rw [hg]
      rfl
    · have hg : (secs0 ++ [addDataMediaSection (toString bun0.length) ufrag pwd
          "actpass"]).getD pc.rtpTransceivers.length emptyMedia =
          addDataMediaSection (toString bun0.length) ufrag pwd "actpass" := by
        rw [List.getD_eq_getElem?_getD, List.getElem?_append,
          if_neg (by omega), hlen]
        simp
      rw [hg, getMidValue_dataMediaSection, hbunlen]
    · rw [show bun0.length = pc.rtpTransceivers.length from hbunlen]
      rw [hbun, List.range_succ]
      simp
  · intro hsem
    have hsemif : (if pc.configuration.sdpSemantics = SDPSemantics.planB
        then True else False) = True := by rw [hsem]; simp
    rcases hv : pc.rtpTransceivers.filter (fun t => t.kind = .video)
      with _ | ⟨tv, restv⟩ <;>
    rcases ha : pc.rtpTransceivers.filter (fun t => t.kind = .audio)
      with _ | ⟨ta, resta⟩
    · refine ⟨[addDataMediaSection "data" ufrag pwd "actpass"], ["data"],
        ?_, ?_, by simp, ?_, ?_⟩
      · unfold CreateOffer
        rw [hidp]
        simp only [hcl, Bool.false_eq_true, if_false, Option.isSome_none,
          if_false, hsem, hv, ha]
        rfl
      · rw [hv, ha]; simp
      · intro j hj
        simp only [List.length_cons, List.length_nil] at hj
        interval_cases j
        left
        simp [getMidValue_dataMediaSection]
      · simpa using getMidValue_dataMediaSection "data" ufrag pwd "actpass"
    · obtain ⟨ma, hma, hmediaa, hmida⟩ :=
        addTransceiverSDP_cons codecsByKind "audio" ufrag pwd "actpass" ta resta
      refine ⟨[ma, addDataMediaSection "data" ufrag pwd "actpass"],
        ["audio", "data"], ?_, ?_, by simp, ?_, ?_⟩
      · unfold CreateOffer
        rw [hidp]
        simp only [hcl, Bool.false_eq_true, if_false, Option.isSome_none,
          if_false, hsem, hv, ha]
        rw [hma]
        rfl
      · rw [hv, ha]; simp
      · intro j hj
        simp only [List.length_cons, List.length_nil] at hj
        interval_cases j
        · simp only [List.getD_cons_zero, List.getD_cons_succ]
          rw [hmida]
          by_cases hc : (codecsByKind ta.kind).isEmpty
          · right; simp [hc]
          · left; simp [hc]
        · left
          simp [getMidValue_dataMediaSection]
      · simpa using getMidValue_dataMediaSection "data" ufrag pwd "actpass"
    · obtain ⟨mv, hmv, hmediav, hmidv⟩ :=
        addTransceiverSDP_cons codecsByKind "video" ufrag pwd "actpass" tv restv
      refine ⟨[mv, addDataMediaSection "data" ufrag pwd "actpass"],
        ["video", "data"], ?_, ?_, by simp, ?_, ?_⟩
      · unfold CreateOffer
        rw [hidp]
        simp only [hcl, Bool.false_eq_true, if_false, Option.isSome_none,
          if_false, hsem, hv, ha]
        rw [hmv]
        rfl
      · rw [hv, ha]; simp
      · intro j hj
        simp only [List.length_cons, List.length_nil] at hj
        interval_cases j
        · simp only [List.getD_cons_zero, List.getD_cons_succ]
          rw [hmidv]
          by_cases hc : (codecsByKind tv.kind).isEmpty
          · right; simp [hc]
          · left; simp [hc]
        · left
          simp [getMidValue_dataMediaSection]
      · simpa using getMidValue_dataMediaSection "data" ufrag pwd "actpass"
    · obtain ⟨mv, hmv, hmediav, hmidv⟩ :=
        addTransceiverSDP_cons codecsByKind "video" ufrag pwd "actpass" tv restv
      obtain ⟨ma, hma, hmediaa, hmida⟩ :=
        addTransceiverSDP_cons codecsByKind "audio" ufrag pwd "actpass" ta resta
      refine ⟨[mv, ma, addDataMediaSection "data" ufrag pwd "actpass"],
        ["video", "audio", "data"], ?_, ?_, by simp, ?_, ?_⟩
      · unfold CreateOffer
        rw [hidp]
        simp only [hcl, Bool.false_eq_true, if_false, Option.isSome_none,
          if_false, hsem, hv, ha]
        rw [hmv, hma]
        rfl
      · rw [hv, ha]; simp
      · intro j hj
        simp only [List.length_cons, List.length_nil] at hj
        interval_cases j
        · simp only [List.getD_cons_zero, List.getD_cons_succ]
          rw [hmidv]
          by_cases hc : (codecsByKind tv.kind).isEmpty
          · right; simp [hc]
          · left; simp [hc]
        · simp only [List.getD_cons_zero, List.getD_cons_succ]
          rw [hmida]
          by_cases hc : (codecsByKind ta.kind).isEmpty
          · right; simp [hc]
          · left; simp [hc]
        · left
          simp [getMidValue_dataMediaSection]
      · simpa using getMidValue_dataMediaSection "data" ufrag pwd "actpass"

/-- Witness for the amended C5 theorem: one audio and one video
transceiver with a one-codec engine, under Unified Plan: three sections
with mids 0, 1 and a data mid 2, bundle 0 1 2. -/
theorem createOffer_mid_assignment_amended_witness :
    getMidValue ((((CreateOffer
        (fun _ => [{ payloadType := 96, name := "opus" }]) "u" "p"
        { initialPCState with rtpTransceivers :=
            [freshInactiveTransceiver .audio, freshInactiveTransceiver .video] }
        false).toOption).getD ([], [])).1.getD 0 emptyMedia) = "0" ∧
    getMidValue ((((CreateOffer
        (fun _ => [{ payloadType := 96, name := "opus" }]) "u" "p"
        { initialPCState with rtpTransceivers :=
            [freshInactiveTransceiver .audio, freshInactiveTransceiver .video] }
        false).toOption).getD ([], [])).1.getD 2 emptyMedia) = "2" ∧
    ((((CreateOffer
        (fun _ => [{ payloadType := 96, name := "opus" }]) "u" "p"
        { initialPCState with rtpTransceivers :=
            [freshInactiveTransceiver .audio, freshInactiveTransceiver .video] }
        false).toOption).getD ([], []))).2 = ["0", "1", "2"] := by
  obtain ⟨h1, h2⟩ := createOffer_mid_assignment_amended
    (fun _ => [{ payloadType := 96, name := "opus" }]) "u" "p"
    { initialPCState with rtpTransceivers :=
        [freshInactiveTransceiver .audio, freshInactiveTransceiver .video] }
    rfl rfl
  obtain ⟨secs, bun, hok, hlen, hidx, hdm, hdmid, hbun⟩ := h1 rfl
  rw [hok]
  refine ⟨?_, ?_, ?_⟩
  · have := (hidx 0 (by decide)).2
    simpa using this
  · simpa using hdmid
  · simpa using hbun

lemma answerMediaLoop_unified_detected_error
    (codecsByKind : RTPCodecType → List Codec) (ufrag pwd : String) :
    ∀ (medias : List MediaDescription) (lt : List RTPTransceiver),
      (∀ m ∈ medias, getMidValue m ≠ "") →
      (∃ m ∈ medias, NewRTPCodecType m.mediaName.media ≠ .unknownCodecType ∧
        getPeerDirection m ≠ .unknownDirection) →
      answerMediaLoop codecsByKind ufrag pwd .unifiedPlan true medias lt =
        .error (.typeError .incorrectSDPSemantics) := by
  intro medias
  induction medias with
  | nil =>
      intro lt hmids hex
      simp at hex
  | cons m rest ih =>
      intro lt hmids hex
      have hmid : getMidValue m ≠ "" := hmids m (List.mem_cons_self m rest)
      rw [answerMediaLoop]
      rw [if_neg hmid]
      by_cases happ : m.mediaName.media = "application"
      · rw [if_pos happ]
        have hexr : ∃ m2 ∈ rest,
            NewRTPCodecType m2.mediaName.media ≠ .unknownCodecType ∧
            getPeerDirection m2 ≠ .unknownDirection := by
          obtain ⟨w, hw, hw2⟩ := hex
          rcases List.mem_cons.mp hw with rfl | hwr
          · exfalso
            apply hw2.1
            rw [happ]
            rfl
          · exact ⟨w, hwr, hw2⟩
        rw [ih lt (fun x hx => hmids x (List.mem_cons_of_mem m hx)) hexr]
        rfl
      · rw [if_neg happ]
        by_cases hskip : NewRTPCodecType m.mediaName.media = .unknownCodecType ∨
            getPeerDirection m = .unknownDirection
        · rw [if_pos hskip]
          have hexr : ∃ m2 ∈ rest,
              NewRTPCodecType m2.mediaName.media ≠ .unknownCodecType ∧
              getPeerDirection m2 ≠ .unknownDirection := by
            obtain ⟨w, hw, hw2⟩ := hex
            rcases List.mem_cons.mp hw with rfl | hwr
            · exfalso
              rcases hskip with hs | hs
              · exact hw2.1 hs
              · exact hw2.2 hs
            · exact ⟨w, hwr, hw2⟩
          exact ih lt (fun x hx => hmids x (List.mem_cons_of_mem m hx)) hexr
        · rw [if_neg hskip]
          rfl

lemma answerMediaLoop_planB_undetected_error
    (codecsByKind : RTPCodecType → List Codec) (ufrag pwd : String) :
    ∀ (medias : List MediaDescription) (lt : List RTPTransceiver),
      (∀ m ∈ medias, getMidValue m ≠ "") →
      (∃ m ∈ medias, NewRTPCodecType m.mediaName.media ≠ .unknownCodecType ∧
        getPeerDirection m ≠ .unknownDirection) →
      answerMediaLoop codecsByKind ufrag pwd .planB false medias lt =
        .error (.typeError .incorrectSDPSemantics) := by
  intro medias
  induction medias with
  | nil =>
      intro lt hmids hex
      simp at hex
  | cons m rest ih =>
      intro lt hmids hex
      have hmid : getMidValue m ≠ "" := hmids m (List.mem_cons_self m rest)
      rw [answerMediaLoop]
      rw [if_neg hmid]
      by_cases happ : m.mediaName.media = "application"
      · rw [if_pos happ]
        have hexr : ∃ m2 ∈ rest,
            NewRTPCodecType m2.mediaName.media ≠ .unknownCodecType ∧
            getPeerDirection m2 ≠ .unknownDirection := by
          obtain ⟨w, hw, hw2⟩ := hex
          rcases List.mem_cons.mp hw with rfl | hwr
          · exfalso
            apply hw2.1
            rw [happ]
            rfl
          · exact ⟨w, hwr, hw2⟩
        rw [ih lt (fun x hx => hmids x (List.mem_cons_of_mem m hx)) hexr]
        rfl
      · rw [if_neg happ]
        by_cases hskip : NewRTPCodecType m.mediaName.media = .unknownCodecType ∨
            getPeerDirection m = .unknownDirection
        · rw [if_pos hskip]
          have hexr : ∃ m2 ∈ rest,
              NewRTPCodecType m2.mediaName.media ≠ .unknownCodecType ∧
              getPeerDirection m2 ≠ .unknownDirection := by
            obtain ⟨w, hw, hw2⟩ := hex
            rcases List.mem_cons.mp hw with rfl | hwr
            · exfalso
              rcases hskip with hs | hs
              · exact hw2.1 hs
              · exact hw2.2 hs
            · exact ⟨w, hwr, hw2⟩
          exact ih lt (fun x hx => hmids x (List.mem_cons_of_mem m hx)) hexr
        · rw [if_neg hskip]
          rfl

/-- Counterexample state for C4: a UnifiedPlan connection whose remote
description holds a single application m-section with mid data. -/
def pcC4ex : PCState :=
  { initialPCState with
      pendingRemoteDescription :=
        some { sdpType := .offer, sdp := "o"
               parsed := some
                 { attributes := []
                   mediaDescriptions :=
                     [{ mediaName :=
                          { media := "application", port := 9,
                            protos := ["DTLS", "SCTP"], formats := ["5000"] }
                        attributes := [{ key := "mid", value := "data" }] }] } } }

/-- The answer produced in the C4 counterexample. -/
def c4out : List MediaDescription × List String :=
  ((CreateAnswer (fun _ => []) "u" "p" pcC4ex false).toOption).getD ([], [])

/-- Counterexample for C4: the remote description is detected Plan-B (its
application section's mid is the literal data), yet under UnifiedPlan
semantics CreateAnswer succeeds, because the semantics check only runs for
audio/video m-sections and the sole section takes the application branch. -/
theorem createAnswer_planB_detection_counterexample :
    descriptionIsPlanB (RemoteDescription pcC4ex) = true ∧
    pcC4ex.configuration.sdpSemantics = .unifiedPlan ∧
    CreateAnswer (fun _ => []) "u" "p" pcC4ex false = .ok c4out := by
  refine ⟨by decide, by decide, by rfl⟩

/-- C4 (amended): a remote description is detected Plan-B iff some media
section's mid (the value of its first mid attribute) matches
audio/video/data case-insensitively; for a non-closed UnifiedPlan
connection whose parsed remote description has a non-empty mid on every
m-section and at least one audio/video m-section with a known direction,
CreateAnswer fails with TypeError IncorrectSDPSemantics when the remote is
detected Plan-B, and symmetrically under PlanB semantics when it is not
detected Plan-B; with no such RTP m-section (for example a data-only
offer) CreateAnswer does not perform the check. -/
theorem createAnswer_sdp_semantics_amended
    (codecsByKind : RTPCodecType → List Codec) (ufrag pwd : String)
    (pc : PCState) (desc : SessionDescription) (tree : ParsedSDP)
    (hrd : RemoteDescription pc = some desc)
    (hparsed : desc.parsed = some tree)
    (hidp : pc.idpLoginURL = none)
    (hcl : pc.isClosed = false)
    (hmids : ∀ m ∈ tree.mediaDescriptions, getMidValue m ≠ "")
    (hrtp : ∃ m ∈ tree.mediaDescriptions,
      NewRTPCodecType m.mediaName.media ≠ .unknownCodecType ∧
      getPeerDirection m ≠ .unknownDirection) :
    (descriptionIsPlanB (some desc) = true ↔
      ∃ m ∈ tree.mediaDescriptions,
        planBDetectionMatch (getMidValue m) = true) ∧
    (pc.configuration.sdpSemantics = .unifiedPlan →
      descriptionIsPlanB (RemoteDescription pc) = true →
      CreateAnswer codecsByKind ufrag pwd pc false =
        .error (.typeError .incorrectSDPSemantics)) ∧
    (pc.configuration.sdpSemantics = .planB →
      descriptionIsPlanB (RemoteDescription pc) = false →
      CreateAnswer codecsByKind ufrag pwd pc false =
        .error (.typeError .incorrectSDPSemantics)) := by
  have hrdsome : (RemoteDescription pc).isNone = false := by
    rw [hrd]; rfl
  refine ⟨?_, ?_, ?_⟩
  · simp [descriptionIsPlanB, hparsed, List.any_eq_true]
  · intro hsem hdet
    unfold CreateAnswer
    rw [hidp]
    simp only [hrdsome, Bool.false_eq_true, if_false, hcl,
      Option.isSome_none, hsem]
    rw [hdet]
    rw [show (match RemoteDescription pc with
        | some rd => (rd.parsed.map (fun tr => tr.mediaDescriptions)).getD []
        | none => []) = tree.mediaDescriptions by simp [hrd, hparsed]]
    exact answerMediaLoop_unified_detected_error codecsByKind ufrag pwd
      tree.mediaDescriptions pc.rtpTransceivers hmids hrtp
  · intro hsem hdet
    unfold CreateAnswer
    rw [hidp]
    simp only [hrdsome, Bool.false_eq_true, if_false, hcl,
      Option.isSome_none, hsem]
    rw [hdet]
    rw [show (match RemoteDescription pc with
        | some rd => (rd.parsed.map (fun tr => tr.mediaDescriptions)).getD []
        | none => []) = tree.mediaDescriptions by simp [hrd, hparsed]]
    exact answerMediaLoop_planB_undetected_error codecsByKind ufrag pwd
      tree.mediaDescriptions pc.rtpTransceivers hmids hrtp

/-- Witness state for the amended C4 theorem: a UnifiedPlan connection
whose remote offer holds one audio m-section with mid audio and a
sendrecv direction. -/
def pcC4w : PCState :=
  { initialPCState with
      pendingRemoteDescription :=
        some { sdpType := .offer, sdp := "o"
               parsed := some
                 { attributes := []
                   mediaDescriptions :=
                     [{ mediaName :=
                          { media := "audio", port := 9,
                            protos := ["UDP", "TLS", "RTP", "SAVPF"],
                            formats := ["96"] }
                        attributes :=
                          [{ key := "mid", value := "audio" },
                           { key := "sendrecv", value := "" }] }] } } }

/-- The parsed tree of the C4 witness remote description. -/
def treeC4w : ParsedSDP :=
  { attributes := []
    mediaDescriptions :=
      [{ mediaName :=
           { media := "audio", port := 9,
             protos := ["UDP", "TLS", "RTP", "SAVPF"], formats := ["96"] }
         attributes :=
           [{ key := "mid", value := "audio" },
            { key := "sendrecv", value := "" }] }] }

/-- Witness for the amended C4 theorem: the concrete Plan-B style audio
offer is detected Plan-B and CreateAnswer under UnifiedPlan rejects it
with TypeError IncorrectSDPSemantics. -/
theorem createAnswer_sdp_semantics_amended_witness :
    CreateAnswer (fun _ => []) "u" "p" pcC4w false =
      .error (.typeError .incorrectSDPSemantics) := by
  have h := createAnswer_sdp_semantics_amended (fun _ => []) "u" "p" pcC4w
    ((pcC4w.pendingRemoteDescription).getD
      { sdpType := .offer, sdp := "", parsed := none })
    treeC4w (by rfl) (by rfl) rfl rfl
    (by intro m hm; fin_cases hm <;> decide)
    ⟨{ mediaName :=
         { media := "audio", port := 9,
           protos := ["UDP", "TLS", "RTP", "SAVPF"], formats := ["96"] }
       attributes :=
         [{ key := "mid", value := "audio" },
          { key := "sendrecv", value := "" }] },
      by decide, by decide, by decide⟩
  exact h.2.1 rfl (by decide)

end Webrtc
